import Mathlib

/-!
# ToonFrame Architect — verification of the generation pipeline

Shallow embedding of the ToonFrame Architect client (React/TypeScript) and
proofs about its scene-image pipeline, retry wrappers, analysis client,
progress store and export helpers.

Conventions of the embedding:

* JavaScript `undefined`-able fields become `Option` fields; JS truthiness of
  an optional string (`undefined` or `''` are falsy) is `oStrTruthy`.
* The generative backend is modelled as an oracle `Oracle : Nat → Except String
  (List Candidate)`: the outcome of the k-th `ai.models.generateContent` call,
  either a thrown error (carrying its message string) or a response candidate
  list.  Outcomes are indexed by call order and do not depend on UI state,
  which matches the source: no request payload feeds back into control flow.
* React state updates (`setStoryboard`) are synchronous whole-value
  replacements on an `AppState` record; this matches the single-producer
  cooperative concurrency of the source (one pipeline mutates the store,
  every network call is an `await` suspension point between patches).
* `setTimeout` back-off sleeps have no state effect; where a claim talks
  about them the embedding returns the list of computed wait durations (ms).
-/

namespace ToonFrame

/-! ## Data model (src `types.ts`, bundled at the end of the App source file) -/

structure ConsistencyBible where
  characterVisuals : String
  environmentVisuals : String
deriving Repr, DecidableEq

structure CharacterReferenceSheet where
  front : String
  side : String
  back : String
deriving Repr, DecidableEq

structure Scene where
  id : Nat
  title : String := ""
  context : String := ""
  imageADescription : String := ""
  imageBDescription : String := ""
  motionPrompt : String := ""
  characterDirection : Option String := none
  characterExpression : Option String := none
  characterPose : Option String := none
  imageAUrl : Option String := none
  imageBUrl : Option String := none
  isGeneratingImage : Option Bool := none
  retryAttempt : Option Nat := none
  imageAFailed : Option Bool := none
  imageBFailed : Option Bool := none
deriving Repr, DecidableEq

structure StoryboardData where
  consistencyBible : ConsistencyBible
  scenes : List Scene
  characterReferenceSheet : Option CharacterReferenceSheet := none
deriving Repr, DecidableEq

/-- JS truthiness of an optional string: `undefined` and `''` are falsy. -/
def oStrTruthy : Option String → Bool
  | none => false
  | some s => !(s == "")

/-! ## The caller-level state (App component, `src/unnamed/part_001`) -/

structure AppState where
  storyboard : Option StoryboardData := none
  storyboardRef : Option StoryboardData := none
  error : Option String := none
  hasApiKey : Bool := true
deriving Repr, DecidableEq

/-- Scene list currently held by the store (`[]` when no storyboard). -/
def stateScenes (st : AppState) : List Scene :=
  match st.storyboard with
  | some sb => sb.scenes
  | none => []

/-- A `Partial<Scene>` as used by `updateSceneInState`: only the fields the
pipeline ever patches.  `some v` means the key is present in the update
object (the source never passes an explicitly-`undefined` value). -/
structure SceneUpdate where
  imageAUrl : Option String := none
  imageBUrl : Option String := none
  isGeneratingImage : Option Bool := none
  retryAttempt : Option Nat := none
  imageAFailed : Option Bool := none
  imageBFailed : Option Bool := none
deriving Repr, DecidableEq

/-- Spread merge of `s` with the update `u`: present keys of the update override. -/
def applyUpdate (s : Scene) (u : SceneUpdate) : Scene :=
  { s with
    imageAUrl := match u.imageAUrl with | some v => some v | none => s.imageAUrl
    imageBUrl := match u.imageBUrl with | some v => some v | none => s.imageBUrl
    isGeneratingImage :=
      match u.isGeneratingImage with | some v => some v | none => s.isGeneratingImage
    retryAttempt := match u.retryAttempt with | some v => some v | none => s.retryAttempt
    imageAFailed := match u.imageAFailed with | some v => some v | none => s.imageAFailed
    imageBFailed := match u.imageBFailed with | some v => some v | none => s.imageBFailed }

/-- One entry of the `scenes.map` inside `updateSceneInState`. -/
def upd1 (sceneId : Nat) (u : SceneUpdate) (s : Scene) : Scene :=
  if s.id = sceneId then applyUpdate s u else s

/-- Source `updateSceneInState` (App, lines 68–76): map the patch over the matching
scene id, replace the whole storyboard value and keep `storyboardRef` in
sync.  When the storyboard is `null` the updater returns `null` and the ref
is left untouched. -/
def updateSceneInState (st : AppState) (sceneId : Nat) (u : SceneUpdate) : AppState :=
  match st.storyboard with
  | none => st
  | some prev =>
    let newState : StoryboardData := { prev with scenes := prev.scenes.map (upd1 sceneId u) }
    { st with storyboard := some newState, storyboardRef := some newState }

/-- Replace-whole of a new generation: `setStoryboard(data); storyboardRef.current = data`
(App, lines 193–194). -/
def setStoryboardBoth (st : AppState) (d : StoryboardData) : AppState :=
  { st with storyboard := some d, storyboardRef := some d }

/-- The reference-sheet attachment (App, line 204):
`setStoryboard(prev => prev ? { ...prev, characterReferenceSheet } : null)`.
Note that this updater does not touch `storyboardRef`. -/
def attachReferenceSheet (st : AppState) (rs : CharacterReferenceSheet) : AppState :=
  { st with storyboard := st.storyboard.map fun sb => { sb with characterReferenceSheet := some rs } }

/-! ## Borderline image client (`geminiService.generateSceneImage`) -/

/-- One `inlineData` payload of a generateContent response part. -/
structure InlinePart where
  mimeType : String
  base64Data : String
deriving Repr, DecidableEq

structure Part where
  inlineData : Option InlinePart
deriving Repr, DecidableEq

structure Candidate where
  parts : List Part
deriving Repr, DecidableEq

/-- Outcome of one raw `ai.models.generateContent` call: a thrown error
(message string) or the candidate list of the response. -/
abbrev GenOutcome := Except String (List Candidate)

/-- Oracle giving the outcome of the k-th generateContent call issued. -/
abbrev Oracle := Nat → GenOutcome

/-- Source test `if (part.inlineData && part.inlineData.data)` — the part carries a
truthy (non-empty) base64 payload. -/
def partImage (p : Part) : Option InlinePart :=
  match p.inlineData with
  | some d => if d.base64Data == "" then none else some d
  | none => none

/-- First usable inline image among a candidate's parts. -/
def firstImagePart : List Part → Option InlinePart
  | [] => none
  | p :: ps =>
    match partImage p with
    | some d => some d
    | none => firstImagePart ps

/-- Scan of `generateSceneImage`: iterate candidates and return on the first
part holding inline data (the function `return`s, so the first candidate
with an image wins). -/
def firstImage : List Candidate → Option InlinePart
  | [] => none
  | c :: cs =>
    match firstImagePart c.parts with
    | some d => some d
    | none => firstImage cs

/-- The data-URL built from a found inline image. -/
def dataUrl (d : InlinePart) : String :=
  "data:" ++ d.mimeType ++ ";base64," ++ d.base64Data

/-- Source `geminiService.generateSceneImage` applied to the outcome of its single
generateContent call: propagate a thrown error, return the first inline
image as a data URL, or throw `"No image generated."`. -/
def generateSceneImage (resp : GenOutcome) : Except String String :=
  match resp with
  | .error e => .error e
  | .ok cands =>
    match firstImage cands with
    | some d => .ok (dataUrl d)
    | none => .error "No image generated."

/-! ## Retry wrapper (`geminiService.generateSceneImageWithRetry`) -/

/-- The `for (let attempt = 1; attempt <= maxRetries; attempt++)` loop.
`remaining` counts the attempts left (`attempt + remaining = maxRetries + 1`);
the result triple is (outcome, next oracle index, back-off waits in ms). -/
def retryGo (gen : Oracle) (maxRetries : Nat) :
    Nat → Nat → Option String → Nat → Except String String × Nat × List Nat
  | k, _attempt, lastError, 0 =>
    (.error (lastError.getD "Scene image generation failed after all retries"), k, [])
  | k, attempt, _lastError, remaining + 1 =>
    match generateSceneImage (gen k) with
    | .ok r => (.ok r, k + 1, [])
    | .error e =>
      let waits := if attempt < maxRetries then [min (1000 * 2 ^ (attempt - 1)) 5000] else []
      let rest := retryGo gen maxRetries (k + 1) (attempt + 1) (some e) remaining
      (rest.1, rest.2.1, waits ++ rest.2.2)

/-- Source `generateSceneImageWithRetry(description, context, size, charImage,
maxRetries)`: up to `maxRetries` total attempts, exponential back-off
`min(1000 * 2^(attempt-1), 5000)` between failed attempts, rethrow of the
last error when all attempts fail. -/
def generateSceneImageWithRetry (gen : Oracle) (k : Nat) (maxRetries : Nat) :
    Except String String × Nat × List Nat :=
  retryGo gen maxRetries k 1 none maxRetries

/-! ## Export helpers (`downloadService.ts`) -/

/-- Source `areAllImagesGenerated`: every scene has truthy `imageAUrl` and
`imageBUrl`. -/
def areAllImagesGenerated (sb : StoryboardData) : Bool :=
  sb.scenes.all fun sc => oStrTruthy sc.imageAUrl && oStrTruthy sc.imageBUrl

structure ImagesCount where
  total : Nat
  generated : Nat
deriving Repr, DecidableEq

/-- Source `getGeneratedImagesCount`: total is `2 * scenes.length`, generated counts
the truthy image URLs. -/
def getGeneratedImagesCount (sb : StoryboardData) : ImagesCount :=
  { total := sb.scenes.length * 2
    generated := sb.scenes.foldl
      (fun c sc =>
        c + (if oStrTruthy sc.imageAUrl then 1 else 0)
          + (if oStrTruthy sc.imageBUrl then 1 else 0)) 0 }

/-! ### C10 — `areAllImagesGenerated` vs `getGeneratedImagesCount` -/

/-- Per-scene weight used by the count. -/
def sceneWeight (sc : Scene) : Nat :=
  (if oStrTruthy sc.imageAUrl then 1 else 0) + (if oStrTruthy sc.imageBUrl then 1 else 0)

lemma foldl_count_eq_sum (l : List Scene) (n : Nat) :
    l.foldl
      (fun c sc =>
        c + (if oStrTruthy sc.imageAUrl then 1 else 0)
          + (if oStrTruthy sc.imageBUrl then 1 else 0)) n
      = n + (l.map sceneWeight).sum := by
  induction l generalizing n with
  | nil => simp
  | cons sc rest ih =>
    simp only [List.foldl_cons, List.map_cons, List.sum_cons, ih, sceneWeight]
    omega

lemma generated_eq_sum (sb : StoryboardData) :
    (getGeneratedImagesCount sb).generated = (sb.scenes.map sceneWeight).sum := by
  simpa [getGeneratedImagesCount] using foldl_count_eq_sum sb.scenes 0

lemma all_iff_sum (l : List Scene) :
    (l.all fun sc => oStrTruthy sc.imageAUrl && oStrTruthy sc.imageBUrl) = true ↔
      (l.map sceneWeight).sum = l.length * 2 := by
  induction l with
  | nil => simp
  | cons sc rest ih =>
    have hle : (rest.map sceneWeight).sum ≤ rest.length * 2 := by
      clear ih
      induction rest with
      | nil => simp
      | cons x xs ihx =>
        simp only [List.map_cons, List.sum_cons, List.length_cons, sceneWeight]
        have : (if oStrTruthy x.imageAUrl then 1 else 0)
            + (if oStrTruthy x.imageBUrl then 1 else 0) ≤ 2 := by
          split <;> split <;> omega
        omega
    have hw : sceneWeight sc ≤ 2 := by
      simp only [sceneWeight]; split <;> split <;> omega
    have hw2 : (sceneWeight sc = 2) ↔
        (oStrTruthy sc.imageAUrl = true ∧ oStrTruthy sc.imageBUrl = true) := by
      simp only [sceneWeight]
      constructor
      · intro h; constructor <;> by_contra hb <;> simp [hb] at h <;> split at h <;> omega
      · rintro ⟨h1, h2⟩; simp [h1, h2]
    constructor
    · intro h
      simp only [List.all_cons, Bool.and_eq_true] at h
      obtain ⟨h1, h2⟩ := h
      have hsum := ih.mp h2
      have hsc : sceneWeight sc = 2 := hw2.mpr h1
      simp only [List.map_cons, List.sum_cons, List.length_cons, hsum, hsc]
      omega
    · intro h
      simp only [List.map_cons, List.sum_cons, List.length_cons] at h
      have hsc : sceneWeight sc = 2 := by omega
      have hrest : (rest.map sceneWeight).sum = rest.length * 2 := by omega
      simp only [List.all_cons, Bool.and_eq_true]
      exact ⟨hw2.mp hsc, ih.mpr hrest⟩

/-- Marks both failure flags of a scene (statement helper for C10's
flag-insensitivity conjunct). -/
def markFailed (sc : Scene) : Scene :=
  { sc with imageAFailed := some true, imageBFailed := some true }

/-- C10: `areAllImagesGenerated` is true exactly when
`getGeneratedImagesCount` reports `generated = total`; both hold vacuously
for an empty scene list (so the export gate is satisfied with zero images);
and both functions ignore the failure flags, so a scene with both images
set counts as complete even when a failure flag is also set. -/
theorem c10_all_iff_count (sb : StoryboardData) :
    (areAllImagesGenerated sb = true ↔
      (getGeneratedImagesCount sb).generated = (getGeneratedImagesCount sb).total)
    ∧ (sb.scenes = [] →
        areAllImagesGenerated sb = true ∧ (getGeneratedImagesCount sb).generated = 0
          ∧ (getGeneratedImagesCount sb).total = 0)
    ∧ areAllImagesGenerated { sb with scenes := sb.scenes.map markFailed }
        = areAllImagesGenerated sb
    ∧ (getGeneratedImagesCount { sb with scenes := sb.scenes.map markFailed }).generated
        = (getGeneratedImagesCount sb).generated := by
  refine ⟨?_, ?_, ?_, ?_⟩
  · rw [generated_eq_sum]
    simpa [areAllImagesGenerated, getGeneratedImagesCount] using all_iff_sum sb.scenes
  · intro h; simp [areAllImagesGenerated, getGeneratedImagesCount, h]
  · simp only [areAllImagesGenerated]
    induction sb.scenes with
    | nil => simp
    | cons sc rest ih => simp only [List.map_cons, List.all_cons, ih, markFailed]
  · rw [generated_eq_sum, generated_eq_sum]
    simp only [List.map_map]
    apply congrArg
    apply List.map_congr_left
    intro sc _
    simp [markFailed, sceneWeight, Function.comp]

/-- Witness for C10 at a concrete storyboard with one complete and one
incomplete scene. -/
theorem c10_all_iff_count_witness :
    (areAllImagesGenerated
        { consistencyBible := { characterVisuals := "c", environmentVisuals := "e" }
          scenes := [{ id := 1, imageAUrl := some "data:a", imageBUrl := some "data:b" },
                     { id := 2, imageAUrl := some "data:a2" }] } = false)
    ∧ (getGeneratedImagesCount
        { consistencyBible := { characterVisuals := "c", environmentVisuals := "e" }
          scenes := [{ id := 1, imageAUrl := some "data:a", imageBUrl := some "data:b" },
                     { id := 2, imageAUrl := some "data:a2" }] }).generated = 3 := by
  have h := c10_all_iff_count
    { consistencyBible := { characterVisuals := "c", environmentVisuals := "e" }
      scenes := [{ id := 1, imageAUrl := some "data:a", imageBUrl := some "data:b" },
                 { id := 2, imageAUrl := some "data:a2" }] }
  refine ⟨?_, by decide⟩
  have hgen : (getGeneratedImagesCount
      { consistencyBible := { characterVisuals := "c", environmentVisuals := "e" }
        scenes := [{ id := 1, imageAUrl := some "data:a", imageBUrl := some "data:b" },
                   { id := 2, imageAUrl := some "data:a2" }] }).generated = 3 := by decide
  by_contra hb
  simp only [Bool.not_eq_false] at hb
  have := h.1.mp hb
  rw [hgen] at this
  simp [getGeneratedImagesCount] at this

/-! ### C4 — the retry wrapper with `maxRetries = 3` -/

lemma dataUrl_ne_empty (d : InlinePart) : dataUrl d ≠ "" := by
  intro h
  have hlen := congrArg String.length h
  simp only [dataUrl, String.length_append] at hlen
  have h5 : ("data:").length = 5 := by decide
  have h8 : (";base64,").length = 8 := by decide
  have h0 : ("" : String).length = 0 := by decide
  simp only [h5, h8, h0] at hlen
  omega

lemma generateSceneImage_ok_ne_empty {resp : GenOutcome} {u : String}
    (h : generateSceneImage resp = .ok u) : u ≠ "" := by
  unfold generateSceneImage at h
  cases resp with
  | error e => simp at h
  | ok cands =>
    cases hf : firstImage cands with
    | none => simp [hf] at h
    | some d =>
      simp only [hf] at h
      cases h
      exact dataUrl_ne_empty d

lemma retryGo_ok_ne_empty (gen : Oracle) (m : Nat) :
    ∀ (k a : Nat) (le : Option String) (r : Nat) (u : String) (k2 : Nat) (ws : List Nat),
      retryGo gen m k a le r = (.ok u, k2, ws) → u ≠ "" := by
  intro k a le r
  induction r generalizing k a le with
  | zero => intro u k2 ws h; simp [retryGo] at h
  | succ n ih =>
    intro u k2 ws h
    simp only [retryGo] at h
    cases hg : generateSceneImage (gen k) with
    | ok v =>
      simp only [hg] at h
      obtain ⟨h1, -⟩ := Prod.mk.injEq .. ▸ h
      cases h1
      have := generateSceneImage_ok_ne_empty hg
      simpa using this
    | error e =>
      simp only [hg] at h
      obtain ⟨h1, h2⟩ := Prod.mk.injEq .. ▸ h
      exact ih (k + 1) (a + 1) (some e) u
        (retryGo gen m (k + 1) (a + 1) (some e) n).2.1
        (retryGo gen m (k + 1) (a + 1) (some e) n).2.2
        (by rw [← h1])

lemma generateSceneImageWithRetry_ok_ne_empty {gen : Oracle} {k m : Nat} {u : String}
    {k2 : Nat} {ws : List Nat}
    (h : generateSceneImageWithRetry gen k m = (.ok u, k2, ws)) : u ≠ "" :=
  retryGo_ok_ne_empty gen m k 1 none m u k2 ws h

/-- C4: with `maxRetries = 3` the retry wrapper calls the underlying
generation at most three times; it returns the first successful result
(advancing the oracle index just past that call, with back-off waits of
`min(1000·2^(attempt−1), 5000)` ms recorded between failed attempts); and
when all three attempts fail it rethrows the last underlying error
unmodified. -/
theorem c4_retry_bound (gen : Oracle) (k : Nat) :
    ((generateSceneImageWithRetry gen k 3).2.1 - k ≤ 3)
    ∧ (∀ u, generateSceneImage (gen k) = .ok u →
        generateSceneImageWithRetry gen k 3 = (.ok u, k + 1, []))
    ∧ (∀ e1 u, generateSceneImage (gen k) = .error e1 →
        generateSceneImage (gen (k + 1)) = .ok u →
        generateSceneImageWithRetry gen k 3 = (.ok u, k + 2, [1000]))
    ∧ (∀ e1 e2 u, generateSceneImage (gen k) = .error e1 →
        generateSceneImage (gen (k + 1)) = .error e2 →
        generateSceneImage (gen (k + 2)) = .ok u →
        generateSceneImageWithRetry gen k 3 = (.ok u, k + 3, [1000, 2000]))
    ∧ (∀ e1 e2 e3, generateSceneImage (gen k) = .error e1 →
        generateSceneImage (gen (k + 1)) = .error e2 →
        generateSceneImage (gen (k + 2)) = .error e3 →
        generateSceneImageWithRetry gen k 3 = (.error e3, k + 3, [1000, 2000])) := by
  refine ⟨?_, ?_, ?_, ?_, ?_⟩
  · unfold generateSceneImageWithRetry
    simp only [retryGo]
    cases generateSceneImage (gen k) with
    | ok u => simp; try omega
    | error e1 =>
      simp only []
      cases generateSceneImage (gen (k + 1)) with
      | ok u => simp; try omega
      | error e2 =>
        simp only []
        cases generateSceneImage (gen (k + 2)) with
        | ok u => simp; try omega
        | error e3 => simp; try omega
  · intro u h
    unfold generateSceneImageWithRetry
    simp [retryGo, h]
  · intro e1 u h1 h2
    unfold generateSceneImageWithRetry
    simp [retryGo, h1, h2]
    try omega
  · intro e1 e2 u h1 h2 h3
    unfold generateSceneImageWithRetry
    simp [retryGo, h1, h2, h3]
    try omega
  · intro e1 e2 e3 h1 h2 h3
    unfold generateSceneImageWithRetry
    simp [retryGo, h1, h2, h3]
    try omega

/-- Witness for C4: an always-failing backend makes the wrapper perform
exactly three attempts, wait 1000 then 2000 ms, and rethrow the third
error. -/
theorem c4_retry_bound_witness :
    generateSceneImageWithRetry (fun _ => .error "boom") 0 3
      = (.error "boom", 3, [1000, 2000]) := by
  have h := (c4_retry_bound (fun _ => .error "boom") 0).2.2.2.2 "boom" "boom" "boom"
    (by rfl) (by rfl) (by rfl)
  simpa using h

/-! ### C5 — `createCharacterReferenceSheet` per-view retry loop

In the source (`downloadService.ts` lines 729–815, the version the App
calls with two arguments) each view runs
`while (retryCount < maxRetries)` with `maxRetries = 3`; inside the loop the
response scan sets `results[viewName]` and the loop `break`s when that slot
became truthy.  `retryCount` is incremented only in the `catch` block, and
the back-off `setTimeout(1000 * retryCount)` also only runs there. -/

/-- Scan of the reference-sheet response: the inner `break` leaves only the
parts loop, so each candidate that carries an inline image overwrites the
slot — the last such candidate wins. -/
def refSheetScan (cands : List Candidate) : Option InlinePart :=
  cands.foldl
    (fun acc c =>
      match firstImagePart c.parts with
      | some d => some d
      | none => acc) none

/-- The per-view `while (retryCount < maxRetries)` loop, instrumented with
explicit fuel: `some (url, k)` means the loop exited (with `url = ""` when
the attempt budget was exhausted by thrown errors), `none` means the loop
was still running after `fuel` iterations. -/
def refViewLoop (gen : Oracle) : Nat → Nat → Nat → Option (String × Nat)
  | 0, _, _ => none
  | fuel + 1, k, retryCount =>
    if retryCount < 3 then
      match gen k with
      | .ok cands =>
        match refSheetScan cands with
        | some d => some (dataUrl d, k + 1)
        | none => refViewLoop gen fuel (k + 1) retryCount
      | .error _ => refViewLoop gen fuel (k + 1) (retryCount + 1)
    else some ("", k)

/-- Source `createCharacterReferenceSheet(description, originalCharacterImage)`:
the three views (front, side, back) are processed sequentially, each with
its own retry loop; `none` when some view's loop is still running after
`fuel` iterations. -/
def createCharacterReferenceSheet (gen : Oracle) (fuel k : Nat) :
    Option (CharacterReferenceSheet × Nat) :=
  match refViewLoop gen fuel k 0 with
  | none => none
  | some (front, k1) =>
    match refViewLoop gen fuel k1 0 with
    | none => none
    | some (side, k2) =>
      match refViewLoop gen fuel k2 0 with
      | none => none
      | some (back, k3) => some ({ front := front, side := side, back := back }, k3)

lemma refViewLoop_emptyOk_none (rc : Nat) (hrc : rc < 3) :
    ∀ (fuel k : Nat), refViewLoop (fun _ => .ok []) fuel k rc = none := by
  intro fuel
  induction fuel with
  | zero => intro k; rfl
  | succ n ih =>
    intro k
    simp only [refViewLoop, if_pos hrc, refSheetScan, List.foldl_nil]
    exact ih (k + 1)

/-- C5 (code bug): when the image model keeps returning successful
responses that contain no inline image, a view's retry loop never
terminates — `retryCount` is only incremented in the `catch` block, so the
`maxRetries = 3` budget is never consumed and `createCharacterReferenceSheet`
re-issues the generation call forever, contradicting the 3-attempt bound. -/
theorem c5_reference_sheet_loop_diverges :
    ∀ (fuel k : Nat), createCharacterReferenceSheet (fun _ => .ok []) fuel k = none := by
  intro fuel k
  unfold createCharacterReferenceSheet
  rw [refViewLoop_emptyOk_none 0 (by omega) fuel k]

/-! ## String `includes` and the authorization-message test -/

/-- Tests whether `hay` starts with `needle` (character lists). -/
def leadsWith : List Char → List Char → Bool
  | _, [] => true
  | [], _ :: _ => false
  | h :: t, nh :: nt => (h == nh) && leadsWith t nt

/-- Tests whether `hay` contains `needle` as a contiguous run (character lists). -/
def hasSub : List Char → List Char → Bool
  | [], needle => needle.isEmpty
  | h :: t, needle => leadsWith (h :: t) needle || hasSub t needle

/-- JavaScript `hay.includes(needle)`. -/
def jsIncludes (hay needle : String) : Bool :=
  hasSub hay.toList needle.toList

/-- The authorization test applied to an error message in `processImagesQueue`
(App lines 118–119) and `handleGenerate` (App line 215):
`errMsg.includes("403") || errMsg.includes("PERMISSION_DENIED") ||
errMsg.includes("Requested entity was not found")`. -/
def isAuthMessage (msg : String) : Bool :=
  jsIncludes msg "403" || jsIncludes msg "PERMISSION_DENIED"
    || jsIncludes msg "Requested entity was not found"

/-! ## Analysis client (`geminiService.generateStoryboardAnalysis`) — C6 -/

/-- JSON values, for modelling the payload returned by the analysis call.
Numbers are collapsed to integers: only the integer/non-integer distinction
matters to the expected schema. -/
inductive Json where
  | null : Json
  | bool (b : Bool) : Json
  | num (n : Int) : Json
  | str (s : String) : Json
  | arr (xs : List Json) : Json
  | obj (fields : List (String × Json)) : Json

/-- Source `generateStoryboardAnalysis` applied to the text of the backend response:
throw `"No response from Gemini."` when the text is absent or empty
(`!response.text`), otherwise run the external `JSON.parse` (the `parse`
argument models that library function) and either return its value — the
source casts it with `as StoryboardData`, performing no shape check — or
throw `"Failed to parse storyboard data."`. -/
def generateStoryboardAnalysis (parse : String → Option Json) (respText : Option String) :
    Except String Json :=
  match respText with
  | none => .error "No response from Gemini."
  | some t =>
    if t == "" then .error "No response from Gemini."
    else
      match parse t with
      | some v => .ok v
      | none => .error "Failed to parse storyboard data."

/-- Field lookup in a JSON object. -/
def jGet (fields : List (String × Json)) (key : String) : Option Json :=
  match fields.find? (fun p => p.1 == key) with
  | some p => some p.2
  | none => none

def isStrVal : Option Json → Bool
  | some (Json.str _) => true
  | _ => false

def isIntVal : Option Json → Bool
  | some (Json.num _) => true
  | _ => false

/-- One scene of the `responseSchema` sent with the analysis request
(`geminiService.ts` lines 30–46): an object with a required integer `id`
and eight required string fields. -/
def sceneJsonOK (j : Json) : Bool :=
  match j with
  | Json.obj fields =>
    isIntVal (jGet fields "id") && isStrVal (jGet fields "title")
      && isStrVal (jGet fields "context") && isStrVal (jGet fields "imageADescription")
      && isStrVal (jGet fields "imageBDescription") && isStrVal (jGet fields "motionPrompt")
      && isStrVal (jGet fields "characterDirection")
      && isStrVal (jGet fields "characterExpression") && isStrVal (jGet fields "characterPose")
  | _ => false

/-- The full `responseSchema` of the analysis request: the expected
`StoryboardData` shape (required `consistencyBible` with two strings and
required `scenes` array of schema-conforming scenes). -/
def matchesStoryboardSchema (j : Json) : Bool :=
  match j with
  | Json.obj fields =>
    (match jGet fields "consistencyBible" with
     | some (Json.obj b) =>
        isStrVal (jGet b "characterVisuals") && isStrVal (jGet b "environmentVisuals")
     | _ => false)
    && (match jGet fields "scenes" with
        | some (Json.arr xs) => xs.all sceneJsonOK
        | _ => false)
  | _ => false

/-- The analysis stage of `handleGenerate` (App lines 185–223): reset the
error and the storyboard (and its shadow ref), then either install the
parsed data in both the store and the shadow ref, or route the thrown
message through the catch block (authorization-style messages set the
permission error and drop the API-key flag; otherwise the message itself is
shown, with a generic fallback for an empty message). -/
def handleGenerateAnalysis (analysisResult : Except String StoryboardData) (st : AppState) :
    AppState :=
  let st1 : AppState := { st with error := none, storyboard := none, storyboardRef := none }
  match analysisResult with
  | .ok d => setStoryboardBoth st1 d
  | .error msg =>
    if isAuthMessage msg then
      { st1 with error := some "Permission denied. Please select a valid API Key."
                 hasApiKey := false }
    else
      { st1 with error := some (if msg == "" then "An unexpected error occurred." else msg) }

/-- A stub for the external `JSON.parse` that agrees with it on the inputs
used here: `JSON.parse("null")` yields JSON `null`, and `"xyz"` is not valid
JSON. -/
def parseNullOnly : String → Option Json :=
  fun s => if s == "null" then some Json.null else none

/-- C6 counterexample: a non-empty payload that is valid JSON but does not
have the expected `StoryboardData` shape (`"null"`) is *accepted* by
`generateStoryboardAnalysis` — the claim that the call fails exactly when
the payload is empty or fails to parse against the expected shape is false,
because the source never validates the shape client-side. -/
theorem c6_shape_invalid_payload_accepted :
    generateStoryboardAnalysis parseNullOnly (some "null") = .ok Json.null
    ∧ matchesStoryboardSchema Json.null = false := by
  exact ⟨rfl, rfl⟩

/-- C6 (amended): `generateStoryboardAnalysis` fails exactly when the
payload is absent/empty or is not syntactically valid JSON, with
distinguishable errors for the two cases; every JSON-parsable payload is
returned unvalidated; and on an analysis failure `handleGenerate` leaves no
storyboard installed. -/
theorem c6_analysis_error_exactness (parse : String → Option Json) (t : String) :
    (generateStoryboardAnalysis parse none = .error "No response from Gemini.")
    ∧ (generateStoryboardAnalysis parse (some "") = .error "No response from Gemini.")
    ∧ (t ≠ "" → parse t = none →
        generateStoryboardAnalysis parse (some t) = .error "Failed to parse storyboard data.")
    ∧ (∀ v, t ≠ "" → parse t = some v →
        generateStoryboardAnalysis parse (some t) = .ok v)
    ∧ ("No response from Gemini." ≠ "Failed to parse storyboard data.")
    ∧ (∀ msg st, (handleGenerateAnalysis (.error msg) st).storyboard = none) := by
  refine ⟨rfl, rfl, ?_, ?_, by decide, ?_⟩
  · intro ht hp
    have hbe : (t == "") = false := beq_eq_false_iff_ne.mpr ht
    simp [generateStoryboardAnalysis, hbe, hp]
  · intro v ht hp
    have hbe : (t == "") = false := beq_eq_false_iff_ne.mpr ht
    simp [generateStoryboardAnalysis, hbe, hp]
  · intro msg st
    simp only [handleGenerateAnalysis]
    split <;> rfl

/-- Witness for C6's amended theorem: a syntactically invalid payload is
rejected with the parse-failure message and the App shows no storyboard. -/
theorem c6_analysis_error_exactness_witness :
    generateStoryboardAnalysis parseNullOnly (some "xyz")
        = .error "Failed to parse storyboard data."
    ∧ (handleGenerateAnalysis (.error "Failed to parse storyboard data.") {}).storyboard
        = none := by
  refine ⟨(c6_analysis_error_exactness parseNullOnly "xyz").2.2.1 (by decide) rfl, ?_⟩
  exact (c6_analysis_error_exactness parseNullOnly "xyz").2.2.2.2.2
    "Failed to parse storyboard data." {}

/-! ## Archive export (`downloadImagesAsZip` / `handleDownloadZip`) — C3 -/

/-- Source `scene.id.toString().padStart(2, '0')` for the ids produced here. -/
def pad2 (n : Nat) : String :=
  if n < 10 then "0" ++ toString n else toString n

/-- Scene image files added to the archive: one entry per *present* image —
missing images are simply skipped (`if (scene.imageAUrl) { ... }`). -/
def sceneZipEntries (scenes : List Scene) : List String :=
  scenes.foldr
    (fun sc acc =>
      (if oStrTruthy sc.imageAUrl then ["Scene_" ++ pad2 sc.id ++ "_A.png"] else [])
        ++ (if oStrTruthy sc.imageBUrl then ["Scene_" ++ pad2 sc.id ++ "_B.png"] else [])
        ++ acc) []

/-- Reference-sheet files added to the archive (each view only when its URL
is truthy). -/
def refSheetZipEntries (sheet : Option CharacterReferenceSheet) : List String :=
  match sheet with
  | none => []
  | some rs =>
    (if rs.front == "" then [] else ["character-references/character-front-view.png"])
      ++ (if rs.side == "" then [] else ["character-references/character-side-view.png"])
      ++ (if rs.back == "" then [] else ["character-references/character-back-view.png"])

/-- Source `downloadImagesAsZip`: the list of files placed in the generated
archive, in insertion order (assuming the individual fetches and the
archive library succeed; a failed per-file fetch is caught and the file
skipped).  The function performs **no** completeness check — absent images
just produce no entry. -/
def downloadImagesAsZip (sb : StoryboardData) (characterImage : Option String) : List String :=
  (if oStrTruthy characterImage then ["character-main.png"] else [])
    ++ refSheetZipEntries sb.characterReferenceSheet
    ++ ["README.txt", "storyboard-data.json", "motion-prompts.txt", "consistency-guide.txt"]
    ++ sceneZipEntries sb.scenes

/-- Result of a ZIP download request made through the download section. -/
inductive ZipRequestOutcome where
  | precondError (msg : String) : ZipRequestOutcome
  | archive (entries : List String) : ZipRequestOutcome
deriving Repr, DecidableEq

/-- Source `handleDownloadZip` (`DownloadSection.tsx` lines 34–51): refuse with a
download error when not all images are generated, otherwise invoke the
archive generator. -/
def handleDownloadZip (sb : StoryboardData) (characterImage : Option String) :
    ZipRequestOutcome :=
  if areAllImagesGenerated sb then .archive (downloadImagesAsZip sb characterImage)
  else .precondError "Please wait for all images to be generated before downloading."

/-- A partial storyboard: scene 1 complete, scene 2 missing image B. -/
def sbPartial : StoryboardData :=
  { consistencyBible := { characterVisuals := "c", environmentVisuals := "e" }
    scenes := [{ id := 1, imageAUrl := some "data:a1", imageBUrl := some "data:b1" },
               { id := 2, imageAUrl := some "data:a2" }] }

/-- C3 counterexample: the archive generator itself does **not** reject a
partial storyboard — called on a storyboard with a missing image it
produces an archive that silently omits the missing file (`Scene_02_B.png`
is absent), contrary to the claim that the generator rejects partial
storyboards. -/
theorem c3_generator_zips_partial_storyboard :
    areAllImagesGenerated sbPartial = false
    ∧ downloadImagesAsZip sbPartial none =
        ["README.txt", "storyboard-data.json", "motion-prompts.txt", "consistency-guide.txt",
         "Scene_01_A.png", "Scene_01_B.png", "Scene_02_A.png"] := by
  constructor
  · rfl
  · rfl

/-- C3 (amended): requesting the archive through the download section's
handler fails with the precondition message and produces no archive
whenever some scene image is missing — the completeness gate lives in
`handleDownloadZip` (and the button's disabled state), not in the archive
generator, which when invoked directly zips the partial result. -/
theorem c3_zip_request_precondition (sb : StoryboardData) (ci : Option String) :
    (areAllImagesGenerated sb = false →
      handleDownloadZip sb ci
        = .precondError "Please wait for all images to be generated before downloading.")
    ∧ (areAllImagesGenerated sb = true →
      handleDownloadZip sb ci = .archive (downloadImagesAsZip sb ci)) := by
  constructor <;> intro h <;> simp [handleDownloadZip, h]

/-- Witness for C3's amended theorem at the concrete partial storyboard. -/
theorem c3_zip_request_precondition_witness :
    areAllImagesGenerated sbPartial = false
    ∧ handleDownloadZip sbPartial none
        = .precondError "Please wait for all images to be generated before downloading." := by
  exact ⟨rfl, (c3_zip_request_precondition sbPartial none).1 rfl⟩

/-! ## Shadow reference synchronisation — C8 -/

def sbDemo : StoryboardData :=
  { consistencyBible := { characterVisuals := "c", environmentVisuals := "e" }
    scenes := [{ id := 1 }] }

def rsDemo : CharacterReferenceSheet :=
  { front := "data:f", side := "data:s", back := "data:b" }

def stDemo : AppState :=
  { storyboard := some sbDemo, storyboardRef := some sbDemo }

/-- C8 counterexample: the reference-sheet attachment updates only the
store — afterwards the shadow reference differs from the live storyboard
(it lacks the attached sheet), so the claim that the shadow reference
equals the live value after *every* update (including the reference-sheet
attachment) is false. -/
theorem c8_attach_desyncs_shadow_ref :
    (attachReferenceSheet stDemo rsDemo).storyboardRef
      ≠ (attachReferenceSheet stDemo rsDemo).storyboard := by
  decide

/-- C8 (amended): the shadow reference equals the live store after the
replace-whole of a new generation and after every scene patch (given they
agreed beforehand); the reference-sheet attachment leaves the shadow
reference stale, but it only adds the sheet, so the shadow reference's
*scene list* still equals the live scene list — which is all the
background pipeline reads from it. -/
theorem c8_shadow_ref_scene_sync (st : AppState) (d : StoryboardData) (i : Nat)
    (u : SceneUpdate) (rs : CharacterReferenceSheet) :
    ((setStoryboardBoth st d).storyboardRef = (setStoryboardBoth st d).storyboard)
    ∧ (st.storyboardRef = st.storyboard →
        (updateSceneInState st i u).storyboardRef = (updateSceneInState st i u).storyboard)
    ∧ (st.storyboardRef = st.storyboard →
        ((attachReferenceSheet st rs).storyboardRef).map StoryboardData.scenes
          = ((attachReferenceSheet st rs).storyboard).map StoryboardData.scenes) := by
  refine ⟨rfl, ?_, ?_⟩
  · intro h
    unfold updateSceneInState
    cases hsb : st.storyboard with
    | none => simpa [hsb] using h
    | some prev => rfl
  · intro h
    unfold attachReferenceSheet
    cases hsb : st.storyboard with
    | none => simp [hsb, h ▸ hsb]
    | some prev =>
      rw [h, hsb]
      rfl

/-- Witness for C8's amended theorem at concrete inputs. -/
theorem c8_shadow_ref_scene_sync_witness :
    ((updateSceneInState stDemo 1 { isGeneratingImage := some true }).storyboardRef
        = (updateSceneInState stDemo 1 { isGeneratingImage := some true }).storyboard)
    ∧ (((attachReferenceSheet stDemo rsDemo).storyboardRef).map StoryboardData.scenes
        = ((attachReferenceSheet stDemo rsDemo).storyboard).map StoryboardData.scenes) := by
  exact ⟨(c8_shadow_ref_scene_sync stDemo sbDemo 1 { isGeneratingImage := some true } rsDemo).2.1
      rfl,
    (c8_shadow_ref_scene_sync stDemo sbDemo 1 { isGeneratingImage := some true } rsDemo).2.2 rfl⟩

/-! ## The scene image pipeline (`processImagesQueue` / `retryMissingImages`)

The App's first pass iterates `data.scenes` in order; each scene receives the
patch sequence (lines 82–128): mark generating, `retryAttempt := 1`, record
image A's outcome, `retryAttempt := 2`, record image B's outcome, clear
generating (the `finally`).  A generation failure is caught by the inner
`try`/`catch` around the awaited call and recorded as `imageAFailed`/
`imageBFailed`; it is *not* rethrown, so the outer `catch` (lines 115–124),
which contains the authorization-abort (`setError`, `setHasApiKey(false)`,
`return`), can only be reached from the state-setter calls in between, and
those never throw — that branch is unreachable and the embedded pipeline has
no abort path.  Generation outcomes are drawn from the oracle in call order;
they do not depend on the UI state, matching the source. -/

/-- Patch recorded for image A's outcome (App lines 92 / 95). -/
def sceneAPatch (r : Except String String) : SceneUpdate :=
  match r with
  | .ok url => { imageAUrl := some url, imageAFailed := some false }
  | .error _ => { imageAFailed := some true }

/-- Patch recorded for image B's outcome (App lines 103 / 106). -/
def sceneBPatch (r : Except String String) : SceneUpdate :=
  match r with
  | .ok url => { imageBUrl := some url, imageBFailed := some false }
  | .error _ => { imageBFailed := some true }

/-- The six store patches of one first-pass scene iteration, given the two
retry-wrapper results; returns the final state and the intermediate states
after each patch. -/
def processSceneCore (i : Nat) (ra rb : Except String String) (st : AppState) :
    AppState × List AppState :=
  let s1 := updateSceneInState st i { isGeneratingImage := some true }
  let s2 := updateSceneInState s1 i { retryAttempt := some 1 }
  let s3 := updateSceneInState s2 i (sceneAPatch ra)
  let s4 := updateSceneInState s3 i { retryAttempt := some 2 }
  let s5 := updateSceneInState s4 i (sceneBPatch rb)
  let s6 := updateSceneInState s5 i { isGeneratingImage := some false }
  (s6, [s1, s2, s3, s4, s5, s6])

/-- One first-pass scene iteration: image A with a 3-attempt retry budget,
then image B with a fresh 3-attempt budget. -/
def processScene (gen : Oracle) (st : AppState) (k : Nat) (sc : Scene) :
    AppState × Nat × List AppState :=
  let ra := generateSceneImageWithRetry gen k 3
  let rb := generateSceneImageWithRetry gen ra.2.1 3
  let core := processSceneCore sc.id ra.1 rb.1 st
  (core.1, rb.2.1, core.2)

/-- The `for (const scene of data.scenes)` loop of `processImagesQueue`. -/
def firstPass (gen : Oracle) : List Scene → AppState → Nat → AppState × Nat × List AppState
  | [], st, k => (st, k, [])
  | sc :: rest, st, k =>
    let r := processScene gen st k sc
    let r2 := firstPass gen rest r.1 r.2.1
    (r2.1, r2.2.1, r.2.2 ++ r2.2.2)

/-- The store patches of one repair-pass iteration (App lines 147–179).
The guards test the *snapshot* scene `sc` taken from the shadow reference
when the repair pass started, not the live store. -/
def repairSceneCore (sc : Scene) (ra rb : Except String String) (st : AppState) :
    AppState × List AppState :=
  let s1 := updateSceneInState st sc.id { isGeneratingImage := some true }
  let pa :=
    if oStrTruthy sc.imageAUrl then (s1, ([] : List AppState))
    else
      let s2 := updateSceneInState s1 sc.id { retryAttempt := some 3 }
      let s3 := updateSceneInState s2 sc.id (sceneAPatch ra)
      (s3, [s2, s3])
  let pb :=
    if oStrTruthy sc.imageBUrl then (pa.1, ([] : List AppState))
    else
      let s4 := updateSceneInState pa.1 sc.id { retryAttempt := some 4 }
      let s5 := updateSceneInState s4 sc.id (sceneBPatch rb)
      (s5, [s4, s5])
  let s6 := updateSceneInState pb.1 sc.id { isGeneratingImage := some false }
  (s6, s1 :: (pa.2 ++ pb.2 ++ [s6]))

/-- One repair-pass iteration: each still-missing image is retried with a
fresh 2-attempt budget. -/
def repairScene (gen : Oracle) (st : AppState) (k : Nat) (sc : Scene) :
    AppState × Nat × List AppState :=
  let ra := generateSceneImageWithRetry gen k 2
  let k1 := if oStrTruthy sc.imageAUrl then k else ra.2.1
  let rb := generateSceneImageWithRetry gen k1 2
  let k2 := if oStrTruthy sc.imageBUrl then k1 else rb.2.1
  let core := repairSceneCore sc ra.1 rb.1 st
  (core.1, k2, core.2)

/-- The `for (const scene of scenesWithMissingImages)` loop. -/
def repairPass (gen : Oracle) : List Scene → AppState → Nat → AppState × Nat × List AppState
  | [], st, k => (st, k, [])
  | sc :: rest, st, k =>
    let r := repairScene gen st k sc
    let r2 := repairPass gen rest r.1 r.2.1
    (r2.1, r2.2.1, r.2.2 ++ r2.2.2)

/-- Source `scenes.filter(scene => !scene.imageAUrl || !scene.imageBUrl)`. -/
def missingFilter (scenes : List Scene) : List Scene :=
  scenes.filter fun sc => !(oStrTruthy sc.imageAUrl) || !(oStrTruthy sc.imageBUrl)

/-- Source `retryMissingImages` (App lines 134–180): re-scan the *current* state
through the shadow reference and run the repair loop over the scenes that
still miss an image (a `null` ref or an empty list just returns). -/
def retryMissingImages (gen : Oracle) (st : AppState) (k : Nat) :
    AppState × Nat × List AppState :=
  match st.storyboardRef with
  | none => (st, k, [])
  | some cur => repairPass gen (missingFilter cur.scenes) st k

/-- Source `processImagesQueue` (App lines 78–132): the sequential first pass over
`data.scenes` followed by the single repair pass. -/
def processImagesQueue (gen : Oracle) (data : StoryboardData) (st : AppState) (k : Nat) :
    AppState × Nat × List AppState :=
  let r := firstPass gen data.scenes st k
  let r2 := retryMissingImages gen r.1 r.2.1
  (r2.1, r2.2.1, r.2.2 ++ r2.2.2)

/-! ### Basic facts about store patches -/

lemma applyUpdate_id (s : Scene) (u : SceneUpdate) : (applyUpdate s u).id = s.id := rfl

lemma upd1_id (i : Nat) (u : SceneUpdate) (s : Scene) : (upd1 i u s).id = s.id := by
  unfold upd1; split <;> rfl

lemma stateScenes_update (st : AppState) (i : Nat) (u : SceneUpdate) :
    stateScenes (updateSceneInState st i u) = (stateScenes st).map (upd1 i u) := by
  unfold updateSceneInState
  cases h : st.storyboard <;> simp [stateScenes, h]

lemma error_update (st : AppState) (i : Nat) (u : SceneUpdate) :
    (updateSceneInState st i u).error = st.error := by
  unfold updateSceneInState
  cases h : st.storyboard <;> simp [h]

lemma hasApiKey_update (st : AppState) (i : Nat) (u : SceneUpdate) :
    (updateSceneInState st i u).hasApiKey = st.hasApiKey := by
  unfold updateSceneInState
  cases h : st.storyboard <;> simp [h]

lemma storyboard_isSome_update (st : AppState) (i : Nat) (u : SceneUpdate) :
    (updateSceneInState st i u).storyboard.isSome = st.storyboard.isSome := by
  unfold updateSceneInState
  cases h : st.storyboard <;> simp [h]

lemma ids_update (st : AppState) (i : Nat) (u : SceneUpdate) :
    (stateScenes (updateSceneInState st i u)).map Scene.id = (stateScenes st).map Scene.id := by
  rw [stateScenes_update, List.map_map]
  apply List.map_congr_left
  intro s _
  simp [Function.comp, upd1_id]

/-- The shadow reference and the live store hold the same scene list. -/
def scenesSync (st : AppState) : Prop :=
  st.storyboardRef.map StoryboardData.scenes = st.storyboard.map StoryboardData.scenes

lemma scenesSync_update {st : AppState} (h : scenesSync st) (i : Nat) (u : SceneUpdate) :
    scenesSync (updateSceneInState st i u) := by
  unfold updateSceneInState
  cases hsb : st.storyboard with
  | none => exact h
  | some prev => simp [scenesSync]

/-! ### C7 — at most one scene generating at any instant -/

/-- No scene in the store is marked generating. -/
def noGen (st : AppState) : Prop :=
  ∀ s ∈ stateScenes st, s.isGeneratingImage ≠ some true

/-- Only scenes with the given id may be marked generating. -/
def genOnly (i : Nat) (st : AppState) : Prop :=
  ∀ s ∈ stateScenes st, s.isGeneratingImage = some true → s.id = i

/-- Number of scenes currently marked generating. -/
def genCount (st : AppState) : Nat :=
  (stateScenes st).countP fun s => decide (s.isGeneratingImage = some true)

lemma noGen_genOnly {st : AppState} (h : noGen st) (i : Nat) : genOnly i st :=
  fun s hs hflag => absurd hflag (h s hs)

lemma genOnly_update {st : AppState} {i : Nat} (h : genOnly i st) (u : SceneUpdate) :
    genOnly i (updateSceneInState st i u) := by
  intro s' hs' hflag
  rw [stateScenes_update] at hs'
  obtain ⟨s, hs, rfl⟩ := List.mem_map.mp hs'
  rw [upd1_id]
  by_cases hid : s.id = i
  · exact hid
  · rw [show upd1 i u s = s from by simp [upd1, hid]] at hflag
    exact h s hs hflag

lemma genOnly_update_clear {st : AppState} {i : Nat} (h : genOnly i st) :
    noGen (updateSceneInState st i { isGeneratingImage := some false }) := by
  intro s' hs'
  rw [stateScenes_update] at hs'
  obtain ⟨s, hs, rfl⟩ := List.mem_map.mp hs'
  by_cases hid : s.id = i
  · simp [upd1, hid, applyUpdate]
  · rw [show upd1 i _ s = s from by simp [upd1, hid]]
    intro hflag
    exact hid (h s hs hflag)

lemma countP_gen_le_one (l : List Scene) (i : Nat) (hnd : (l.map Scene.id).Nodup)
    (h : ∀ s ∈ l, s.isGeneratingImage = some true → s.id = i) :
    (l.countP fun s => decide (s.isGeneratingImage = some true)) ≤ 1 := by
  induction l with
  | nil => simp
  | cons s rest ih =>
    simp only [List.map_cons, List.nodup_cons] at hnd
    rw [List.countP_cons]
    by_cases hs : s.isGeneratingImage = some true
    · have hid := h s (List.mem_cons_self s rest) hs
      have hrest : (rest.countP fun s => decide (s.isGeneratingImage = some true)) = 0 := by
        rw [List.countP_eq_zero]
        intro t ht
        simp only [decide_eq_true_eq]
        intro hft
        have hidt := h t (List.mem_cons_of_mem _ ht) hft
        exact hnd.1 (hid ▸ hidt ▸ List.mem_map_of_mem Scene.id ht)
      simp [hs, hrest]
    · have hle := ih hnd.2 (fun t ht => h t (List.mem_cons_of_mem _ ht))
      simp only [hs, decide_eq_true_eq]
      simpa using hle

lemma genCount_le_one {st : AppState} {i : Nat}
    (hnd : ((stateScenes st).map Scene.id).Nodup) (h : genOnly i st) : genCount st ≤ 1 :=
  countP_gen_le_one (stateScenes st) i hnd h

lemma ids_processSceneCore (i : Nat) (ra rb : Except String String) (st : AppState) :
    (stateScenes (processSceneCore i ra rb st).1).map Scene.id
      = (stateScenes st).map Scene.id := by
  unfold processSceneCore
  simp only [ids_update]

/-- All states of a first-pass scene iteration (given a state with no
generating scene): every intermediate state marks only scene `i`, and the
iteration ends with no scene generating. -/
lemma processSceneCore_gen {i : Nat} {ra rb : Except String String} {st : AppState}
    (h : noGen st) :
    (∀ s' ∈ (processSceneCore i ra rb st).2, genOnly i s')
    ∧ noGen (processSceneCore i ra rb st).1 := by
  have g0 : genOnly i st := noGen_genOnly h i
  have g1 := genOnly_update g0 { isGeneratingImage := some true }
  have g2 := genOnly_update g1 { retryAttempt := some 1 }
  have g3 := genOnly_update g2 (sceneAPatch ra)
  have g4 := genOnly_update g3 { retryAttempt := some 2 }
  have g5 := genOnly_update g4 (sceneBPatch rb)
  have g6 := genOnly_update g5 { isGeneratingImage := some false }
  have hend := genOnly_update_clear g5
  constructor
  · intro s' hs'
    unfold processSceneCore at hs'
    simp only [List.mem_cons, List.not_mem_nil, or_false] at hs'
    rcases hs' with rfl | rfl | rfl | rfl | rfl | rfl
    · exact g1
    · exact g2
    · exact g3
    · exact g4
    · exact g5
    · exact g6
  · exact hend

lemma ids_repairSceneCore (sc : Scene) (ra rb : Except String String) (st : AppState) :
    (stateScenes (repairSceneCore sc ra rb st).1).map Scene.id
      = (stateScenes st).map Scene.id := by
  unfold repairSceneCore
  by_cases hA : oStrTruthy sc.imageAUrl <;> by_cases hB : oStrTruthy sc.imageBUrl <;>
    simp only [hA, hB, if_pos, if_neg, Bool.false_eq_true, ite_true, ite_false,
      ids_update]

/-- All states of a repair-pass scene iteration: same shape as the first
pass, with the two image retries conditional on the snapshot scene. -/
lemma repairSceneCore_gen {sc : Scene} {ra rb : Except String String} {st : AppState}
    (h : noGen st) :
    (∀ s' ∈ (repairSceneCore sc ra rb st).2, genOnly sc.id s')
    ∧ noGen (repairSceneCore sc ra rb st).1 := by
  have g0 : genOnly sc.id st := noGen_genOnly h sc.id
  unfold repairSceneCore
  by_cases hA : oStrTruthy sc.imageAUrl <;> by_cases hB : oStrTruthy sc.imageBUrl <;>
    simp only [hA, hB, Bool.false_eq_true, ite_true, ite_false]
  · have g1 := genOnly_update g0 { isGeneratingImage := some true }
    refine ⟨?_, genOnly_update_clear g1⟩
    intro s' hs'
    simp only [List.mem_cons, List.not_mem_nil, or_false, List.nil_append,
      List.cons_append, List.mem_singleton] at hs'
    rcases hs' with rfl | rfl
    · exact g1
    · exact genOnly_update g1 _
  · have g1 := genOnly_update g0 { isGeneratingImage := some true }
    have g4 := genOnly_update g1 { retryAttempt := some 4 }
    have g5 := genOnly_update g4 (sceneBPatch rb)
    refine ⟨?_, genOnly_update_clear g5⟩
    intro s' hs'
    simp only [List.mem_cons, List.not_mem_nil, or_false, List.nil_append,
      List.cons_append, List.mem_singleton] at hs'
    rcases hs' with rfl | rfl | rfl | rfl
    · exact g1
    · exact g4
    · exact g5
    · exact genOnly_update g5 _
  · have g1 := genOnly_update g0 { isGeneratingImage := some true }
    have g2 := genOnly_update g1 { retryAttempt := some 3 }
    have g3 := genOnly_update g2 (sceneAPatch ra)
    refine ⟨?_, genOnly_update_clear g3⟩
    intro s' hs'
    simp only [List.mem_cons, List.not_mem_nil, or_false, List.nil_append,
      List.cons_append, List.mem_singleton, List.append_nil] at hs'
    rcases hs' with rfl | rfl | rfl | rfl
    · exact g1
    · exact g2
    · exact g3
    · exact genOnly_update g3 _
  · have g1 := genOnly_update g0 { isGeneratingImage := some true }
    have g2 := genOnly_update g1 { retryAttempt := some 3 }
    have g3 := genOnly_update g2 (sceneAPatch ra)
    have g4 := genOnly_update g3 { retryAttempt := some 4 }
    have g5 := genOnly_update g4 (sceneBPatch rb)
    refine ⟨?_, genOnly_update_clear g5⟩
    intro s' hs'
    simp only [List.mem_cons, List.not_mem_nil, or_false, List.nil_append,
      List.cons_append, List.mem_singleton] at hs'
    rcases hs' with rfl | rfl | rfl | rfl | rfl | rfl
    · exact g1
    · exact g2
    · exact g3
    · exact g4
    · exact g5
    · exact genOnly_update g5 _

lemma ids_processSceneCore_trace {i : Nat} {ra rb : Except String String} {st : AppState} :
    ∀ s' ∈ (processSceneCore i ra rb st).2,
      (stateScenes s').map Scene.id = (stateScenes st).map Scene.id := by
  intro s' hs'
  unfold processSceneCore at hs'
  simp only [List.mem_cons, List.not_mem_nil, or_false] at hs'
  rcases hs' with rfl | rfl | rfl | rfl | rfl | rfl <;> simp only [ids_update]

lemma ids_repairSceneCore_trace {sc : Scene} {ra rb : Except String String} {st : AppState} :
    ∀ s' ∈ (repairSceneCore sc ra rb st).2,
      (stateScenes s').map Scene.id = (stateScenes st).map Scene.id := by
  intro s' hs'
  unfold repairSceneCore at hs'
  by_cases hA : oStrTruthy sc.imageAUrl <;> by_cases hB : oStrTruthy sc.imageBUrl <;>
      simp only [hA, hB, Bool.false_eq_true, ite_true, ite_false, List.nil_append,
        List.cons_append, List.append_nil, List.mem_cons, List.mem_singleton,
        List.not_mem_nil, or_false] at hs'
  · rcases hs' with rfl | rfl <;> simp only [ids_update]
  · rcases hs' with rfl | rfl | rfl | rfl <;> simp only [ids_update]
  · rcases hs' with rfl | rfl | rfl | rfl <;> simp only [ids_update]
  · rcases hs' with rfl | rfl | rfl | rfl | rfl | rfl <;> simp only [ids_update]

lemma ids_processScene (gen : Oracle) (st : AppState) (k : Nat) (sc : Scene) :
    (stateScenes (processScene gen st k sc).1).map Scene.id
      = (stateScenes st).map Scene.id := by
  unfold processScene
  exact ids_processSceneCore _ _ _ _

lemma ids_repairScene (gen : Oracle) (st : AppState) (k : Nat) (sc : Scene) :
    (stateScenes (repairScene gen st k sc).1).map Scene.id
      = (stateScenes st).map Scene.id := by
  unfold repairScene
  exact ids_repairSceneCore _ _ _ _

lemma ids_firstPass (gen : Oracle) :
    ∀ (scl : List Scene) (st : AppState) (k : Nat),
      (stateScenes (firstPass gen scl st k).1).map Scene.id
        = (stateScenes st).map Scene.id := by
  intro scl
  induction scl with
  | nil => intro st k; rfl
  | cons sc rest ih =>
    intro st k
    simp only [firstPass]
    rw [ih (processScene gen st k sc).1 (processScene gen st k sc).2.1,
      ids_processScene]

lemma ids_repairPass (gen : Oracle) :
    ∀ (missing : List Scene) (st : AppState) (k : Nat),
      (stateScenes (repairPass gen missing st k).1).map Scene.id
        = (stateScenes st).map Scene.id := by
  intro missing
  induction missing with
  | nil => intro st k; rfl
  | cons sc rest ih =>
    intro st k
    simp only [repairPass]
    rw [ih (repairScene gen st k sc).1 (repairScene gen st k sc).2.1,
      ids_repairScene]

lemma processScene_gen {gen : Oracle} {st : AppState} {k : Nat} {sc : Scene} (h : noGen st) :
    (∀ s' ∈ (processScene gen st k sc).2.2, genOnly sc.id s')
    ∧ noGen (processScene gen st k sc).1 := by
  unfold processScene
  exact processSceneCore_gen h

lemma repairScene_gen {gen : Oracle} {st : AppState} {k : Nat} {sc : Scene} (h : noGen st) :
    (∀ s' ∈ (repairScene gen st k sc).2.2, genOnly sc.id s')
    ∧ noGen (repairScene gen st k sc).1 := by
  unfold repairScene
  exact repairSceneCore_gen h

lemma firstPass_gen (gen : Oracle) :
    ∀ (scl : List Scene) (st : AppState) (k : Nat), noGen st →
      ((stateScenes st).map Scene.id).Nodup →
      ((∀ s' ∈ (firstPass gen scl st k).2.2, genCount s' ≤ 1)
        ∧ noGen (firstPass gen scl st k).1
        ∧ ((stateScenes (firstPass gen scl st k).1).map Scene.id).Nodup) := by
  intro scl
  induction scl with
  | nil =>
    intro st k h hnd
    refine ⟨?_, h, hnd⟩
    intro s' hs'
    simp only [firstPass] at hs'
    cases hs'
  | cons sc rest ih =>
    intro st k h hnd
    have hcore := @processSceneCore_gen sc.id
      (generateSceneImageWithRetry gen k 3).1
      (generateSceneImageWithRetry gen (generateSceneImageWithRetry gen k 3).2.1 3).1
      st h
    have hidsF : (stateScenes (processScene gen st k sc).1).map Scene.id
        = (stateScenes st).map Scene.id := by
      unfold processScene
      exact ids_processSceneCore _ _ _ _
    have hnoGenF : noGen (processScene gen st k sc).1 := by
      unfold processScene
      exact hcore.2
    have hndF : ((stateScenes (processScene gen st k sc).1).map Scene.id).Nodup := by
      rw [hidsF]; exact hnd
    have hrest := ih (processScene gen st k sc).1 (processScene gen st k sc).2.1 hnoGenF hndF
    refine ⟨?_, ?_, ?_⟩
    · intro s' hs'
      simp only [firstPass, List.mem_append] at hs'
      rcases hs' with hs' | hs'
      · have honly : genOnly sc.id s' := by
          unfold processScene at hs'
          exact hcore.1 s' hs'
        have hids : (stateScenes s').map Scene.id = (stateScenes st).map Scene.id := by
          unfold processScene at hs'
          exact ids_processSceneCore_trace s' hs'
        exact genCount_le_one (hids ▸ hnd) honly
      · exact hrest.1 s' hs'
    · simpa only [firstPass] using hrest.2.1
    · simpa only [firstPass] using hrest.2.2

lemma repairPass_gen (gen : Oracle) :
    ∀ (missing : List Scene) (st : AppState) (k : Nat), noGen st →
      ((stateScenes st).map Scene.id).Nodup →
      ((∀ s' ∈ (repairPass gen missing st k).2.2, genCount s' ≤ 1)
        ∧ noGen (repairPass gen missing st k).1) := by
  intro missing
  induction missing with
  | nil =>
    intro st k h _
    refine ⟨?_, h⟩
    intro s' hs'
    simp only [repairPass] at hs'
    cases hs'
  | cons sc rest ih =>
    intro st k h hnd
    have hcore := @repairSceneCore_gen sc
      (generateSceneImageWithRetry gen k 2).1
      (generateSceneImageWithRetry gen
        (if oStrTruthy sc.imageAUrl then k else (generateSceneImageWithRetry gen k 2).2.1) 2).1
      st h
    have hidsF : (stateScenes (repairScene gen st k sc).1).map Scene.id
        = (stateScenes st).map Scene.id := by
      unfold repairScene
      exact ids_repairSceneCore _ _ _ _
    have hnoGenF : noGen (repairScene gen st k sc).1 := by
      unfold repairScene
      exact hcore.2
    have hndF : ((stateScenes (repairScene gen st k sc).1).map Scene.id).Nodup := by
      rw [hidsF]; exact hnd
    have hrest := ih (repairScene gen st k sc).1 (repairScene gen st k sc).2.1 hnoGenF hndF
    refine ⟨?_, ?_⟩
    · intro s' hs'
      simp only [repairPass, List.mem_append] at hs'
      rcases hs' with hs' | hs'
      · have honly : genOnly sc.id s' := by
          unfold repairScene at hs'
          exact hcore.1 s' hs'
        have hids : (stateScenes s').map Scene.id = (stateScenes st).map Scene.id := by
          unfold repairScene at hs'
          exact ids_repairSceneCore_trace s' hs'
        exact genCount_le_one (hids ▸ hnd) honly
      · exact hrest.1 s' hs'
    · simpa only [repairPass] using hrest.2

lemma noGen_genCount_zero {st : AppState} (h : noGen st) : genCount st = 0 := by
  unfold genCount
  rw [List.countP_eq_zero]
  intro s hs
  simpa using h s hs

/-- C7: given a store whose scene ids are distinct and in which no scene is
marked generating when the pipeline starts, at most one scene has
`isGeneratingImage = true` in the initial state and after every scene patch
applied by the pipeline — throughout the first pass and the repair pass. -/
theorem c7_at_most_one_generating (gen : Oracle) (data : StoryboardData) (st0 : AppState)
    (k : Nat) (h0 : noGen st0) (hnd : ((stateScenes st0).map Scene.id).Nodup) :
    ∀ s' ∈ st0 :: (processImagesQueue gen data st0 k).2.2, genCount s' ≤ 1 := by
  intro s' hs'
  rcases List.mem_cons.mp hs' with rfl | hs'
  · rw [noGen_genCount_zero h0]; omega
  · have hfp := firstPass_gen gen data.scenes st0 k h0 hnd
    have hidsF := ids_firstPass gen data.scenes st0 k
    simp only [processImagesQueue, List.mem_append] at hs'
    rcases hs' with hs' | hs'
    · exact hfp.1 s' hs'
    · unfold retryMissingImages at hs'
      cases href : (firstPass gen data.scenes st0 k).1.storyboardRef with
      | none => rw [href] at hs'; cases hs'
      | some cur =>
        rw [href] at hs'
        exact (repairPass_gen gen (missingFilter cur.scenes)
          (firstPass gen data.scenes st0 k).1 (firstPass gen data.scenes st0 k).2.1
          hfp.2.1 (hidsF ▸ hnd)).1 s' hs'

/-! ### C2 — repair-pass completeness -/

/-- Scene has its A image or carries the A failure flag. -/
def settledA (s : Scene) : Prop :=
  oStrTruthy s.imageAUrl = true ∨ s.imageAFailed = some true

/-- Scene has its B image or carries the B failure flag. -/
def settledB (s : Scene) : Prop :=
  oStrTruthy s.imageBUrl = true ∨ s.imageBFailed = some true

/-- The claim's per-scene disjunction: both images set, or at least one
failure flag set. -/
def sceneResolved (s : Scene) : Prop :=
  (oStrTruthy s.imageAUrl = true ∧ oStrTruthy s.imageBUrl = true)
    ∨ s.imageAFailed = some true ∨ s.imageBFailed = some true

lemma resolved_of_settled {s : Scene} (hA : settledA s) (hB : settledB s) :
    sceneResolved s := by
  rcases hA with hA | hA
  · rcases hB with hB | hB
    · exact Or.inl ⟨hA, hB⟩
    · exact Or.inr (Or.inr hB)
  · exact Or.inr (Or.inl hA)

lemma oStrTruthy_some_of_ne {u : String} (h : u ≠ "") : oStrTruthy (some u) = true := by
  simpa [oStrTruthy] using h

lemma retry_res_ok_ne {gen : Oracle} {k m : Nat} {u : String}
    (h : (generateSceneImageWithRetry gen k m).1 = .ok u) : u ≠ "" := by
  have hp : generateSceneImageWithRetry gen k m
      = ((generateSceneImageWithRetry gen k m).1, (generateSceneImageWithRetry gen k m).2.1,
          (generateSceneImageWithRetry gen k m).2.2) := rfl
  rw [h] at hp
  exact generateSceneImageWithRetry_ok_ne_empty hp

lemma applyUpdate_imageAUrl_none {s : Scene} {u : SceneUpdate} (h : u.imageAUrl = none) :
    (applyUpdate s u).imageAUrl = s.imageAUrl := by
  simp [applyUpdate, h]

lemma applyUpdate_imageBUrl_none {s : Scene} {u : SceneUpdate} (h : u.imageBUrl = none) :
    (applyUpdate s u).imageBUrl = s.imageBUrl := by
  simp [applyUpdate, h]

lemma applyUpdate_imageAFailed_none {s : Scene} {u : SceneUpdate} (h : u.imageAFailed = none) :
    (applyUpdate s u).imageAFailed = s.imageAFailed := by
  simp [applyUpdate, h]

lemma applyUpdate_imageBFailed_none {s : Scene} {u : SceneUpdate} (h : u.imageBFailed = none) :
    (applyUpdate s u).imageBFailed = s.imageBFailed := by
  simp [applyUpdate, h]

lemma sceneAPatch_imageBUrl (ra : Except String String) : (sceneAPatch ra).imageBUrl = none := by
  cases ra <;> rfl

lemma sceneAPatch_imageBFailed (ra : Except String String) :
    (sceneAPatch ra).imageBFailed = none := by
  cases ra <;> rfl

lemma sceneBPatch_imageAUrl (rb : Except String String) : (sceneBPatch rb).imageAUrl = none := by
  cases rb <;> rfl

lemma sceneBPatch_imageAFailed (rb : Except String String) :
    (sceneBPatch rb).imageAFailed = none := by
  cases rb <;> rfl

lemma settledA_applyUpdate_keep {s : Scene} {u : SceneUpdate} (hA : u.imageAUrl = none)
    (hAf : u.imageAFailed = none) (h : settledA s) : settledA (applyUpdate s u) := by
  unfold settledA at h ⊢
  rw [applyUpdate_imageAUrl_none hA, applyUpdate_imageAFailed_none hAf]
  exact h

lemma settledB_applyUpdate_keep {s : Scene} {u : SceneUpdate} (hB : u.imageBUrl = none)
    (hBf : u.imageBFailed = none) (h : settledB s) : settledB (applyUpdate s u) := by
  unfold settledB at h ⊢
  rw [applyUpdate_imageBUrl_none hB, applyUpdate_imageBFailed_none hBf]
  exact h

lemma settledA_aPatch {ra : Except String String} (hra : ∀ u, ra = Except.ok u → u ≠ "")
    (s : Scene) : settledA (applyUpdate s (sceneAPatch ra)) := by
  cases ra with
  | ok u =>
    left
    have hu := hra u rfl
    show oStrTruthy (applyUpdate s (sceneAPatch (Except.ok u))).imageAUrl = true
    have : (applyUpdate s (sceneAPatch (Except.ok u))).imageAUrl = some u := by
      simp [applyUpdate, sceneAPatch]
    rw [this]
    exact oStrTruthy_some_of_ne hu
  | error e =>
    right
    simp [applyUpdate, sceneAPatch]

lemma settledB_bPatch {rb : Except String String} (hrb : ∀ u, rb = Except.ok u → u ≠ "")
    (s : Scene) : settledB (applyUpdate s (sceneBPatch rb)) := by
  cases rb with
  | ok u =>
    left
    have hu := hrb u rfl
    have : (applyUpdate s (sceneBPatch (Except.ok u))).imageBUrl = some u := by
      simp [applyUpdate, sceneBPatch]
    show oStrTruthy (applyUpdate s (sceneBPatch (Except.ok u))).imageBUrl = true
    rw [this]
    exact oStrTruthy_some_of_ne hu
  | error e =>
    right
    simp [applyUpdate, sceneBPatch]

lemma settledA_upd1_keep {i : Nat} {u : SceneUpdate} {s : Scene} (hA : u.imageAUrl = none)
    (hAf : u.imageAFailed = none) (h : settledA s) : settledA (upd1 i u s) := by
  unfold upd1; split
  · exact settledA_applyUpdate_keep hA hAf h
  · exact h

lemma settledB_upd1_keep {i : Nat} {u : SceneUpdate} {s : Scene} (hB : u.imageBUrl = none)
    (hBf : u.imageBFailed = none) (h : settledB s) : settledB (upd1 i u s) := by
  unfold upd1; split
  · exact settledB_applyUpdate_keep hB hBf h
  · exact h

lemma settledA_upd1_aPatch_of_id {i : Nat} {ra : Except String String} {s : Scene}
    (hid : s.id = i) (hra : ∀ u, ra = Except.ok u → u ≠ "") :
    settledA (upd1 i (sceneAPatch ra) s) := by
  unfold upd1
  rw [if_pos hid]
  exact settledA_aPatch hra s

lemma settledB_upd1_bPatch_of_id {i : Nat} {rb : Except String String} {s : Scene}
    (hid : s.id = i) (hrb : ∀ u, rb = Except.ok u → u ≠ "") :
    settledB (upd1 i (sceneBPatch rb) s) := by
  unfold upd1
  rw [if_pos hid]
  exact settledB_bPatch hrb s

lemma settledA_upd1_aPatch {i : Nat} {ra : Except String String} {s : Scene}
    (hra : ∀ u, ra = Except.ok u → u ≠ "") (h : settledA s) :
    settledA (upd1 i (sceneAPatch ra) s) := by
  unfold upd1; split
  · exact settledA_aPatch hra s
  · exact h

lemma settledB_upd1_bPatch {i : Nat} {rb : Except String String} {s : Scene}
    (hrb : ∀ u, rb = Except.ok u → u ≠ "") (h : settledB s) :
    settledB (upd1 i (sceneBPatch rb) s) := by
  unfold upd1; split
  · exact settledB_bPatch hrb s
  · exact h

/-- Pointwise effect of one first-pass scene iteration on a scene of the
store. -/
def coreApply (i : Nat) (ra rb : Except String String) (s : Scene) : Scene :=
  upd1 i { isGeneratingImage := some false }
    (upd1 i (sceneBPatch rb)
      (upd1 i { retryAttempt := some 2 }
        (upd1 i (sceneAPatch ra)
          (upd1 i { retryAttempt := some 1 }
            (upd1 i { isGeneratingImage := some true } s)))))

lemma processSceneCore_scenes (i : Nat) (ra rb : Except String String) (st : AppState) :
    stateScenes (processSceneCore i ra rb st).1 = (stateScenes st).map (coreApply i ra rb) := by
  unfold processSceneCore
  simp only [stateScenes_update, List.map_map]
  rfl

lemma coreApply_id (i : Nat) (ra rb : Except String String) (s : Scene) :
    (coreApply i ra rb s).id = s.id := by
  simp [coreApply, upd1_id]

lemma coreApply_of_ne {i : Nat} {ra rb : Except String String} {s : Scene} (h : ¬s.id = i) :
    coreApply i ra rb s = s := by
  simp [coreApply, upd1, h]

lemma coreApply_settled_of_id {i : Nat} {ra rb : Except String String} {s : Scene}
    (hid : s.id = i) (hra : ∀ u, ra = Except.ok u → u ≠ "")
    (hrb : ∀ u, rb = Except.ok u → u ≠ "") :
    settledA (coreApply i ra rb s) ∧ settledB (coreApply i ra rb s) := by
  unfold coreApply
  have hid2 : (upd1 i { retryAttempt := some 1 }
      (upd1 i { isGeneratingImage := some true } s)).id = i := by
    simp [upd1_id, hid]
  have hA3 := settledA_upd1_aPatch_of_id hid2 hra
  have hA4 := settledA_upd1_keep (i := i) (u := { retryAttempt := some 2 }) rfl rfl hA3
  have hA5 := settledA_upd1_keep (i := i) (sceneBPatch_imageAUrl rb) (sceneBPatch_imageAFailed rb) hA4
  have hA6 := settledA_upd1_keep (i := i) (u := { isGeneratingImage := some false }) rfl rfl hA5
  have hid4 : (upd1 i { retryAttempt := some 2 }
      (upd1 i (sceneAPatch ra)
        (upd1 i { retryAttempt := some 1 }
          (upd1 i { isGeneratingImage := some true } s)))).id = i := by
    simp [upd1_id, hid]
  have hB5 := settledB_upd1_bPatch_of_id hid4 hrb
  have hB6 := settledB_upd1_keep (i := i) (u := { isGeneratingImage := some false }) rfl rfl hB5
  exact ⟨hA6, hB6⟩

lemma coreApply_settled_pres {i : Nat} {ra rb : Except String String} {s : Scene}
    (hra : ∀ u, ra = Except.ok u → u ≠ "") (hrb : ∀ u, rb = Except.ok u → u ≠ "")
    (h : settledA s ∧ settledB s) :
    settledA (coreApply i ra rb s) ∧ settledB (coreApply i ra rb s) := by
  by_cases hid : s.id = i
  · exact coreApply_settled_of_id hid hra hrb
  · rw [coreApply_of_ne hid]; exact h

/-- Pointwise effect of one repair-pass scene iteration on a scene of the
store. -/
def repairApply (sc : Scene) (ra rb : Except String String) (s : Scene) : Scene :=
  let t1 := upd1 sc.id { isGeneratingImage := some true } s
  let t3 :=
    if oStrTruthy sc.imageAUrl then t1
    else upd1 sc.id (sceneAPatch ra) (upd1 sc.id { retryAttempt := some 3 } t1)
  let t5 :=
    if oStrTruthy sc.imageBUrl then t3
    else upd1 sc.id (sceneBPatch rb) (upd1 sc.id { retryAttempt := some 4 } t3)
  upd1 sc.id { isGeneratingImage := some false } t5

lemma repairSceneCore_scenes (sc : Scene) (ra rb : Except String String) (st : AppState) :
    stateScenes (repairSceneCore sc ra rb st).1 = (stateScenes st).map (repairApply sc ra rb) := by
  unfold repairSceneCore repairApply
  by_cases hA : oStrTruthy sc.imageAUrl <;> by_cases hB : oStrTruthy sc.imageBUrl <;>
    simp only [hA, hB, Bool.false_eq_true, ite_true, ite_false, stateScenes_update,
      List.map_map] <;> rfl

lemma repairApply_settled_pres {sc : Scene} {ra rb : Except String String} {s : Scene}
    (hra : ∀ u, ra = Except.ok u → u ≠ "") (hrb : ∀ u, rb = Except.ok u → u ≠ "")
    (h : settledA s ∧ settledB s) :
    settledA (repairApply sc ra rb s) ∧ settledB (repairApply sc ra rb s) := by
  unfold repairApply
  by_cases hA : oStrTruthy sc.imageAUrl <;> by_cases hB : oStrTruthy sc.imageBUrl <;>
      simp only [hA, hB, Bool.false_eq_true, ite_true, ite_false]
  · constructor
    · exact settledA_upd1_keep rfl rfl (settledA_upd1_keep rfl rfl h.1)
    · exact settledB_upd1_keep rfl rfl (settledB_upd1_keep rfl rfl h.2)
  · constructor
    · exact settledA_upd1_keep rfl rfl
        (settledA_upd1_keep (sceneBPatch_imageAUrl rb) (sceneBPatch_imageAFailed rb)
          (settledA_upd1_keep rfl rfl (settledA_upd1_keep rfl rfl h.1)))
    · exact settledB_upd1_keep rfl rfl
        (settledB_upd1_bPatch hrb
          (settledB_upd1_keep rfl rfl (settledB_upd1_keep rfl rfl h.2)))
  · constructor
    · exact settledA_upd1_keep rfl rfl
        (settledA_upd1_aPatch hra
          (settledA_upd1_keep rfl rfl (settledA_upd1_keep rfl rfl h.1)))
    · exact settledB_upd1_keep rfl rfl
        (settledB_upd1_keep (sceneAPatch_imageBUrl ra) (sceneAPatch_imageBFailed ra)
          (settledB_upd1_keep rfl rfl (settledB_upd1_keep rfl rfl h.2)))
  · constructor
    · exact settledA_upd1_keep rfl rfl
        (settledA_upd1_keep (sceneBPatch_imageAUrl rb) (sceneBPatch_imageAFailed rb)
          (settledA_upd1_keep rfl rfl
            (settledA_upd1_aPatch hra
              (settledA_upd1_keep rfl rfl (settledA_upd1_keep rfl rfl h.1)))))
    · exact settledB_upd1_keep rfl rfl
        (settledB_upd1_bPatch hrb
          (settledB_upd1_keep rfl rfl
            (settledB_upd1_keep (sceneAPatch_imageBUrl ra) (sceneAPatch_imageBFailed ra)
              (settledB_upd1_keep rfl rfl (settledB_upd1_keep rfl rfl h.2)))))

lemma firstPass_settled (gen : Oracle) :
    ∀ (scl : List Scene) (st : AppState) (k : Nat),
      (∀ s ∈ stateScenes st, s.id ∈ scl.map Scene.id ∨ (settledA s ∧ settledB s)) →
      ∀ s' ∈ stateScenes (firstPass gen scl st k).1, settledA s' ∧ settledB s' := by
  intro scl
  induction scl with
  | nil =>
    intro st k h s' hs'
    simp only [firstPass] at hs'
    rcases h s' hs' with hid | hset
    · cases hid
    · exact hset
  | cons sc rest ih =>
    intro st k h
    simp only [firstPass]
    apply ih
    intro s' hs'
    have hscenes : stateScenes (processScene gen st k sc).1
        = (stateScenes st).map
            (coreApply sc.id (generateSceneImageWithRetry gen k 3).1
              (generateSceneImageWithRetry gen (generateSceneImageWithRetry gen k 3).2.1 3).1) := by
      unfold processScene
      exact processSceneCore_scenes _ _ _ _
    rw [hscenes] at hs'
    obtain ⟨s, hs, rfl⟩ := List.mem_map.mp hs'
    have hra : ∀ u, (generateSceneImageWithRetry gen k 3).1 = Except.ok u → u ≠ "" :=
      fun u hu => retry_res_ok_ne hu
    have hrb : ∀ u,
        (generateSceneImageWithRetry gen (generateSceneImageWithRetry gen k 3).2.1 3).1
          = Except.ok u → u ≠ "" :=
      fun u hu => retry_res_ok_ne hu
    rcases h s hs with hid | hset
    · simp only [List.map_cons, List.mem_cons] at hid
      rcases hid with hid | hid
      · exact Or.inr (coreApply_settled_of_id hid hra hrb)
      · exact Or.inl (by rw [coreApply_id]; exact hid)
    · exact Or.inr (coreApply_settled_pres hra hrb hset)

lemma repairPass_settled (gen : Oracle) :
    ∀ (missing : List Scene) (st : AppState) (k : Nat),
      (∀ s ∈ stateScenes st, settledA s ∧ settledB s) →
      ∀ s' ∈ stateScenes (repairPass gen missing st k).1, settledA s' ∧ settledB s' := by
  intro missing
  induction missing with
  | nil =>
    intro st k h s' hs'
    simp only [repairPass] at hs'
    exact h s' hs'
  | cons sc rest ih =>
    intro st k h
    simp only [repairPass]
    apply ih
    intro s' hs'
    have hscenes : stateScenes (repairScene gen st k sc).1
        = (stateScenes st).map
            (repairApply sc (generateSceneImageWithRetry gen k 2).1
              (generateSceneImageWithRetry gen
                (if oStrTruthy sc.imageAUrl then k
                  else (generateSceneImageWithRetry gen k 2).2.1) 2).1) := by
      unfold repairScene
      exact repairSceneCore_scenes _ _ _ _
    rw [hscenes] at hs'
    obtain ⟨s, hs, rfl⟩ := List.mem_map.mp hs'
    exact repairApply_settled_pres (fun u hu => retry_res_ok_ne hu)
      (fun u hu => retry_res_ok_ne hu) (h s hs)

lemma retryMissingImages_settled (gen : Oracle) (st : AppState) (k : Nat)
    (h : ∀ s ∈ stateScenes st, settledA s ∧ settledB s) :
    ∀ s' ∈ stateScenes (retryMissingImages gen st k).1, settledA s' ∧ settledB s' := by
  unfold retryMissingImages
  cases href : st.storyboardRef with
  | none => exact h
  | some cur => exact repairPass_settled gen (missingFilter cur.scenes) st k h

/-- C2: when the pipeline starts on the storyboard it was given (the store's
scene list is the plan's scene list, as in `handleGenerate`), then after the
first pass and the single repair pass every scene in the store either has
both images set or carries at least one of the `imageAFailed`/`imageBFailed`
flags — no scene is left silently incomplete. -/
theorem c2_repair_pass_completeness (gen : Oracle) (data : StoryboardData) (st0 : AppState)
    (k : Nat) (h0 : stateScenes st0 = data.scenes) :
    ∀ s ∈ stateScenes (processImagesQueue gen data st0 k).1, sceneResolved s := by
  have h1 : ∀ s' ∈ stateScenes (firstPass gen data.scenes st0 k).1,
      settledA s' ∧ settledB s' := by
    apply firstPass_settled
    intro s hs
    left
    rw [← h0]
    exact List.mem_map_of_mem Scene.id hs
  intro s hs
  unfold processImagesQueue at hs
  have h2 := retryMissingImages_settled gen (firstPass gen data.scenes st0 k).1
    (firstPass gen data.scenes st0 k).2.1 h1 s hs
  exact resolved_of_settled h2.1 h2.2

/-! ### Concrete runs used by witnesses and by the C1 evaluation -/

/-- A response carrying one inline image with the given base64 payload. -/
def candOf (payload : String) : Candidate :=
  { parts := [{ inlineData := some { mimeType := "image/png", base64Data := payload } }] }

/-- Backend that always succeeds. -/
def genAllOk : Oracle := fun _ => .ok [candOf "ok"]

def dataTwo : StoryboardData :=
  { consistencyBible := { characterVisuals := "c", environmentVisuals := "e" }
    scenes := [{ id := 1 }, { id := 2 }] }

def stTwo : AppState :=
  { storyboard := some dataTwo, storyboardRef := some dataTwo }

/-- Witness for C2 at a concrete two-scene run. -/
theorem c2_repair_pass_completeness_witness :
    stateScenes stTwo = dataTwo.scenes
    ∧ ∀ s ∈ stateScenes (processImagesQueue genAllOk dataTwo stTwo 0).1, sceneResolved s :=
  ⟨rfl, c2_repair_pass_completeness genAllOk dataTwo stTwo 0 rfl⟩

/-- Witness for C7 at a concrete two-scene run. -/
theorem c7_at_most_one_generating_witness :
    noGen stTwo ∧ ((stateScenes stTwo).map Scene.id).Nodup
    ∧ ∀ s' ∈ stTwo :: (processImagesQueue genAllOk dataTwo stTwo 0).2.2, genCount s' ≤ 1 :=
  ⟨by unfold noGen; decide, by decide,
    c7_at_most_one_generating genAllOk dataTwo stTwo 0 (by unfold noGen; decide) (by decide)⟩

/-! ### C1 — authorization errors do not abort the queue (code bug)

The outer `catch` of `processImagesQueue` holds the authorization abort
(set the permission error, drop the API key, clear the in-flight flag,
`return`), but the inner `try`/`catch` blocks around the two awaited
generation calls swallow every generation error — including `403` /
`PERMISSION_DENIED` ones — and record them as per-image failure flags.  The
outer branch is therefore unreachable and the queue always continues to the
remaining scenes and the repair pass. -/

def dataThree : StoryboardData :=
  { consistencyBible := { characterVisuals := "c", environmentVisuals := "e" }
    scenes := [{ id := 1 }, { id := 2 }, { id := 3 }] }

def stThree : AppState :=
  { storyboard := some dataThree, storyboardRef := some dataThree }

/-- Backend for the C1 run: every image-A attempt for scene 2 (oracle calls
2, 3 and 4 — all three attempts of its retry budget) rejects with a 403
authorization error; every other call succeeds. -/
def gen403 : Oracle := fun k =>
  if k = 2 ∨ k = 3 ∨ k = 4 then .error "403 PERMISSION_DENIED"
  else .ok [candOf ("p" ++ toString k)]

/-- C1 (code bug, evaluated): in a three-scene run where scene 2's image-A
generation fails with an authorization error on every attempt, the pipeline
does **not** stop: scene 2's image B and both of scene 3's images are still
attempted (and succeed), the repair pass still runs (it fills scene 2's
image A via oracle call 8), the caller-level error state stays unset and
the API-key flag is untouched — even though the error message satisfies
the code's own authorization test. -/
theorem c1_auth_error_does_not_abort :
    isAuthMessage "403 PERMISSION_DENIED" = true
    ∧ (stateScenes (processImagesQueue gen403 dataThree stThree 0).1).map Scene.imageAUrl
        = [some "data:image/png;base64,p0", some "data:image/png;base64,p8",
           some "data:image/png;base64,p6"]
    ∧ (stateScenes (processImagesQueue gen403 dataThree stThree 0).1).map Scene.imageBUrl
        = [some "data:image/png;base64,p1", some "data:image/png;base64,p5",
           some "data:image/png;base64,p7"]
    ∧ (processImagesQueue gen403 dataThree stThree 0).1.error = none
    ∧ (processImagesQueue gen403 dataThree stThree 0).1.hasApiKey = true := by
  refine ⟨by decide, by decide, by decide, by decide, by decide⟩

/-! ### C9 — image URLs are monotone over the session's update sequence -/

/-- A set image URL survives a step: whatever URL `s` carried, `t` still
carries. -/
def keepsUrls (s t : Scene) : Prop :=
  (∀ u, s.imageAUrl = some u → t.imageAUrl = some u)
  ∧ (∀ u, s.imageBUrl = some u → t.imageBUrl = some u)

/-- One store update never clears or replaces a set image URL. -/
def urlMono (st st2 : AppState) : Prop :=
  List.Forall₂ keepsUrls (stateScenes st) (stateScenes st2)

/-- Chain predicate: `TraceOK R trace st fin` says `trace` is the sequence of states reached from
`st`, each consecutive pair related by `R`, ending in `fin`. -/
def TraceOK (R : AppState → AppState → Prop) : List AppState → AppState → AppState → Prop
  | [], st, fin => fin = st
  | s :: rest, st, fin => R st s ∧ TraceOK R rest s fin

lemma TraceOK_append {R : AppState → AppState → Prop} :
    ∀ {t1 t2 : List AppState} {st mid fin : AppState},
      TraceOK R t1 st mid → TraceOK R t2 mid fin → TraceOK R (t1 ++ t2) st fin := by
  intro t1
  induction t1 with
  | nil =>
    intro t2 st mid fin h1 h2
    simp only [TraceOK] at h1
    rw [h1] at h2
    simpa using h2
  | cons s rest ih =>
    intro t2 st mid fin h1 h2
    exact ⟨h1.1, ih h1.2 h2⟩

lemma forall2_self_map {l : List Scene} {f : Scene → Scene}
    (h : ∀ s ∈ l, keepsUrls s (f s)) : List.Forall₂ keepsUrls l (l.map f) := by
  induction l with
  | nil => exact List.Forall₂.nil
  | cons s rest ih =>
    exact List.Forall₂.cons (h s (List.mem_cons_self s rest))
      (ih fun t ht => h t (List.mem_cons_of_mem _ ht))

lemma keepsUrls_of_fields {s t : Scene} (hA : t.imageAUrl = s.imageAUrl)
    (hB : t.imageBUrl = s.imageBUrl) : keepsUrls s t := by
  constructor
  · intro u hu; rw [hA]; exact hu
  · intro u hu; rw [hB]; exact hu

lemma urlMono_update_keep {st : AppState} {i : Nat} {u : SceneUpdate}
    (hA : u.imageAUrl = none) (hB : u.imageBUrl = none) :
    urlMono st (updateSceneInState st i u) := by
  unfold urlMono
  rw [stateScenes_update]
  apply forall2_self_map
  intro s _
  unfold upd1
  split
  · exact keepsUrls_of_fields (applyUpdate_imageAUrl_none hA) (applyUpdate_imageBUrl_none hB)
  · exact keepsUrls_of_fields rfl rfl

lemma applyUpdate_imageAUrl_some {s : Scene} {u : SceneUpdate} {v : String}
    (h : u.imageAUrl = some v) : (applyUpdate s u).imageAUrl = some v := by
  simp [applyUpdate, h]

lemma applyUpdate_imageBUrl_some {s : Scene} {u : SceneUpdate} {v : String}
    (h : u.imageBUrl = some v) : (applyUpdate s u).imageBUrl = some v := by
  simp [applyUpdate, h]

lemma urlMono_update_setA {st : AppState} {i : Nat} {u : SceneUpdate}
    (hB : u.imageBUrl = none)
    (hpre : ∀ s ∈ stateScenes st, s.id = i → s.imageAUrl = none) :
    urlMono st (updateSceneInState st i u) := by
  unfold urlMono
  rw [stateScenes_update]
  apply forall2_self_map
  intro s hs
  unfold upd1
  split
  · next hid =>
    constructor
    · intro v hv
      rw [hpre s hs hid] at hv
      cases hv
    · intro v hv
      rw [applyUpdate_imageBUrl_none hB]
      exact hv
  · exact keepsUrls_of_fields rfl rfl

lemma urlMono_update_setB {st : AppState} {i : Nat} {u : SceneUpdate}
    (hA : u.imageAUrl = none)
    (hpre : ∀ s ∈ stateScenes st, s.id = i → s.imageBUrl = none) :
    urlMono st (updateSceneInState st i u) := by
  unfold urlMono
  rw [stateScenes_update]
  apply forall2_self_map
  intro s hs
  unfold upd1
  split
  · next hid =>
    constructor
    · intro v hv
      rw [applyUpdate_imageAUrl_none hA]
      exact hv
    · intro v hv
      rw [hpre s hs hid] at hv
      cases hv
  · exact keepsUrls_of_fields rfl rfl

lemma keepA_update_noA {st : AppState} {i : Nat} {u : SceneUpdate} {j : Nat}
    {a : Option String} (hA : u.imageAUrl = none)
    (h : ∀ s ∈ stateScenes st, s.id = j → s.imageAUrl = a) :
    ∀ s' ∈ stateScenes (updateSceneInState st i u), s'.id = j → s'.imageAUrl = a := by
  intro s' hs' hid
  rw [stateScenes_update] at hs'
  obtain ⟨s, hs, rfl⟩ := List.mem_map.mp hs'
  rw [upd1_id] at hid
  unfold upd1
  split
  · rw [applyUpdate_imageAUrl_none hA]
    exact h s hs hid
  · exact h s hs hid

lemma keepB_update_noB {st : AppState} {i : Nat} {u : SceneUpdate} {j : Nat}
    {b : Option String} (hB : u.imageBUrl = none)
    (h : ∀ s ∈ stateScenes st, s.id = j → s.imageBUrl = b) :
    ∀ s' ∈ stateScenes (updateSceneInState st i u), s'.id = j → s'.imageBUrl = b := by
  intro s' hs' hid
  rw [stateScenes_update] at hs'
  obtain ⟨s, hs, rfl⟩ := List.mem_map.mp hs'
  rw [upd1_id] at hid
  unfold upd1
  split
  · rw [applyUpdate_imageBUrl_none hB]
    exact h s hs hid
  · exact h s hs hid

/-- Every image URL in the store is either unset or a non-empty data URL. -/
def urlClean (st : AppState) : Prop :=
  ∀ s ∈ stateScenes st,
    (s.imageAUrl = none ∨ oStrTruthy s.imageAUrl = true)
    ∧ (s.imageBUrl = none ∨ oStrTruthy s.imageBUrl = true)

lemma urlClean_update {st : AppState} {i : Nat} {u : SceneUpdate}
    (hA : u.imageAUrl = none ∨ ∃ v, u.imageAUrl = some v ∧ v ≠ "")
    (hB : u.imageBUrl = none ∨ ∃ v, u.imageBUrl = some v ∧ v ≠ "")
    (h : urlClean st) : urlClean (updateSceneInState st i u) := by
  intro s' hs'
  rw [stateScenes_update] at hs'
  obtain ⟨s, hs, rfl⟩ := List.mem_map.mp hs'
  unfold upd1
  split
  · constructor
    · rcases hA with hA | ⟨v, hv, hne⟩
      · rw [applyUpdate_imageAUrl_none hA]
        exact (h s hs).1
      · rw [applyUpdate_imageAUrl_some hv]
        exact Or.inr (oStrTruthy_some_of_ne hne)
    · rcases hB with hB | ⟨v, hv, hne⟩
      · rw [applyUpdate_imageBUrl_none hB]
        exact (h s hs).2
      · rw [applyUpdate_imageBUrl_some hv]
        exact Or.inr (oStrTruthy_some_of_ne hne)
  · exact h s hs

lemma sceneAPatch_clean {ra : Except String String} (hra : ∀ u, ra = Except.ok u → u ≠ "") :
    (sceneAPatch ra).imageAUrl = none
      ∨ ∃ v, (sceneAPatch ra).imageAUrl = some v ∧ v ≠ "" := by
  cases ra with
  | ok u => exact Or.inr ⟨u, rfl, hra u rfl⟩
  | error e => exact Or.inl rfl

lemma sceneBPatch_clean {rb : Except String String} (hrb : ∀ u, rb = Except.ok u → u ≠ "") :
    (sceneBPatch rb).imageBUrl = none
      ∨ ∃ v, (sceneBPatch rb).imageBUrl = some v ∧ v ≠ "" := by
  cases rb with
  | ok u => exact Or.inr ⟨u, rfl, hrb u rfl⟩
  | error e => exact Or.inl rfl

lemma processSceneCore_urlMono {i : Nat} {ra rb : Except String String} {st : AppState}
    (hfA : ∀ s ∈ stateScenes st, s.id = i → s.imageAUrl = none)
    (hfB : ∀ s ∈ stateScenes st, s.id = i → s.imageBUrl = none) :
    TraceOK urlMono (processSceneCore i ra rb st).2 st (processSceneCore i ra rb st).1 := by
  have hfA1 := keepA_update_noA (i := i) (u := { isGeneratingImage := some true }) rfl hfA
  have hfA2 := keepA_update_noA (i := i) (u := { retryAttempt := some 1 }) rfl hfA1
  have hfB1 := keepB_update_noB (i := i) (u := { isGeneratingImage := some true }) rfl hfB
  have hfB2 := keepB_update_noB (i := i) (u := { retryAttempt := some 1 }) rfl hfB1
  have hfB3 := keepB_update_noB (i := i) (u := sceneAPatch ra) (sceneAPatch_imageBUrl ra) hfB2
  have hfB4 := keepB_update_noB (i := i) (u := { retryAttempt := some 2 }) rfl hfB3
  refine ⟨urlMono_update_keep rfl rfl, urlMono_update_keep rfl rfl, ?_,
    urlMono_update_keep rfl rfl, ?_, urlMono_update_keep rfl rfl, rfl⟩
  · cases ra with
    | ok u => exact urlMono_update_setA rfl hfA2
    | error e => exact urlMono_update_keep rfl rfl
  · cases rb with
    | ok u => exact urlMono_update_setB rfl hfB4
    | error e => exact urlMono_update_keep rfl rfl

lemma repairSceneCore_urlMono {sc : Scene} {ra rb : Except String String} {st : AppState}
    (hcorrA : ∀ s ∈ stateScenes st, s.id = sc.id → s.imageAUrl = sc.imageAUrl)
    (hcorrB : ∀ s ∈ stateScenes st, s.id = sc.id → s.imageBUrl = sc.imageBUrl)
    (hscA : sc.imageAUrl = none ∨ oStrTruthy sc.imageAUrl = true)
    (hscB : sc.imageBUrl = none ∨ oStrTruthy sc.imageBUrl = true) :
    TraceOK urlMono (repairSceneCore sc ra rb st).2 st (repairSceneCore sc ra rb st).1 := by
  unfold repairSceneCore
  by_cases hA : oStrTruthy sc.imageAUrl <;> by_cases hB : oStrTruthy sc.imageBUrl <;>
      simp only [hA, hB, Bool.false_eq_true, ite_true, ite_false, List.nil_append,
        List.cons_append, List.append_nil]
  · exact ⟨urlMono_update_keep rfl rfl, urlMono_update_keep rfl rfl, rfl⟩
  · have hscB0 : sc.imageBUrl = none := by
      rcases hscB with h | h
      · exact h
      · exact absurd h hB
    have c1 : ∀ s ∈ stateScenes st, s.id = sc.id → s.imageBUrl = none :=
      fun s hs hid => (hcorrB s hs hid).trans hscB0
    have c2 := keepB_update_noB (i := sc.id) (u := { isGeneratingImage := some true }) rfl c1
    have c3 := keepB_update_noB (i := sc.id) (u := { retryAttempt := some 4 }) rfl c2
    refine ⟨urlMono_update_keep rfl rfl, urlMono_update_keep rfl rfl, ?_,
      urlMono_update_keep rfl rfl, rfl⟩
    cases rb with
    | ok u => exact urlMono_update_setB rfl c3
    | error e => exact urlMono_update_keep rfl rfl
  · have hscA0 : sc.imageAUrl = none := by
      rcases hscA with h | h
      · exact h
      · exact absurd h hA
    have c1 : ∀ s ∈ stateScenes st, s.id = sc.id → s.imageAUrl = none :=
      fun s hs hid => (hcorrA s hs hid).trans hscA0
    have c2 := keepA_update_noA (i := sc.id) (u := { isGeneratingImage := some true }) rfl c1
    have c3 := keepA_update_noA (i := sc.id) (u := { retryAttempt := some 3 }) rfl c2
    refine ⟨urlMono_update_keep rfl rfl, urlMono_update_keep rfl rfl, ?_,
      urlMono_update_keep rfl rfl, rfl⟩
    cases ra with
    | ok u => exact urlMono_update_setA rfl c3
    | error e => exact urlMono_update_keep rfl rfl
  · have hscA0 : sc.imageAUrl = none := by
      rcases hscA with h | h
      · exact h
      · exact absurd h hA
    have hscB0 : sc.imageBUrl = none := by
      rcases hscB with h | h
      · exact h
      · exact absurd h hB
    have a1 : ∀ s ∈ stateScenes st, s.id = sc.id → s.imageAUrl = none :=
      fun s hs hid => (hcorrA s hs hid).trans hscA0
    have a2 := keepA_update_noA (i := sc.id) (u := { isGeneratingImage := some true }) rfl a1
    have a3 := keepA_update_noA (i := sc.id) (u := { retryAttempt := some 3 }) rfl a2
    have b1 : ∀ s ∈ stateScenes st, s.id = sc.id → s.imageBUrl = none :=
      fun s hs hid => (hcorrB s hs hid).trans hscB0
    have b2 := keepB_update_noB (i := sc.id) (u := { isGeneratingImage := some true }) rfl b1
    have b3 := keepB_update_noB (i := sc.id) (u := { retryAttempt := some 3 }) rfl b2
    have b4 := keepB_update_noB (i := sc.id) (u := sceneAPatch ra) (sceneAPatch_imageBUrl ra) b3
    have b5 := keepB_update_noB (i := sc.id) (u := { retryAttempt := some 4 }) rfl b4
    refine ⟨urlMono_update_keep rfl rfl, urlMono_update_keep rfl rfl, ?_,
      urlMono_update_keep rfl rfl, ?_, urlMono_update_keep rfl rfl, rfl⟩
    · cases ra with
      | ok u => exact urlMono_update_setA rfl a3
      | error e => exact urlMono_update_keep rfl rfl
    · cases rb with
      | ok u => exact urlMono_update_setB rfl b5
      | error e => exact urlMono_update_keep rfl rfl

lemma repairApply_id (sc : Scene) (ra rb : Except String String) (s : Scene) :
    (repairApply sc ra rb s).id = s.id := by
  unfold repairApply
  by_cases hA : oStrTruthy sc.imageAUrl <;> by_cases hB : oStrTruthy sc.imageBUrl <;>
    simp [hA, hB, upd1_id]

lemma repairApply_of_ne {sc : Scene} {ra rb : Except String String} {s : Scene}
    (h : ¬s.id = sc.id) : repairApply sc ra rb s = s := by
  unfold repairApply
  by_cases hA : oStrTruthy sc.imageAUrl <;> by_cases hB : oStrTruthy sc.imageBUrl <;>
    simp [hA, hB, upd1, h]

lemma keepAB_processSceneCore_ne {i : Nat} {ra rb : Except String String} {st : AppState}
    {j : Nat} (hne : j ≠ i)
    (h : ∀ s ∈ stateScenes st, s.id = j → s.imageAUrl = none ∧ s.imageBUrl = none) :
    ∀ s' ∈ stateScenes (processSceneCore i ra rb st).1, s'.id = j →
      s'.imageAUrl = none ∧ s'.imageBUrl = none := by
  intro s' hs' hid
  rw [processSceneCore_scenes] at hs'
  obtain ⟨s, hs, rfl⟩ := List.mem_map.mp hs'
  rw [coreApply_id] at hid
  rw [coreApply_of_ne (by rw [hid]; exact hne)]
  exact h s hs hid

lemma corr_repairSceneCore_ne {sc : Scene} {ra rb : Except String String} {st : AppState}
    {j : Nat} {a b : Option String} (hne : j ≠ sc.id)
    (h : ∀ s ∈ stateScenes st, s.id = j → s.imageAUrl = a ∧ s.imageBUrl = b) :
    ∀ s' ∈ stateScenes (repairSceneCore sc ra rb st).1, s'.id = j →
      s'.imageAUrl = a ∧ s'.imageBUrl = b := by
  intro s' hs' hid
  rw [repairSceneCore_scenes] at hs'
  obtain ⟨s, hs, rfl⟩ := List.mem_map.mp hs'
  rw [repairApply_id] at hid
  rw [repairApply_of_ne (by rw [hid]; exact hne)]
  exact h s hs hid

lemma urlClean_processSceneCore {i : Nat} {ra rb : Except String String} {st : AppState}
    (hra : ∀ u, ra = Except.ok u → u ≠ "") (hrb : ∀ u, rb = Except.ok u → u ≠ "")
    (h : urlClean st) : urlClean (processSceneCore i ra rb st).1 := by
  unfold processSceneCore
  apply urlClean_update (Or.inl rfl) (Or.inl rfl)
  apply urlClean_update (Or.inl (sceneBPatch_imageAUrl rb)) (sceneBPatch_clean hrb)
  apply urlClean_update (Or.inl rfl) (Or.inl rfl)
  apply urlClean_update (sceneAPatch_clean hra) (Or.inl (sceneAPatch_imageBUrl ra))
  apply urlClean_update (Or.inl rfl) (Or.inl rfl)
  exact urlClean_update (Or.inl rfl) (Or.inl rfl) h

lemma urlClean_repairSceneCore {sc : Scene} {ra rb : Except String String} {st : AppState}
    (hra : ∀ u, ra = Except.ok u → u ≠ "") (hrb : ∀ u, rb = Except.ok u → u ≠ "")
    (h : urlClean st) : urlClean (repairSceneCore sc ra rb st).1 := by
  unfold repairSceneCore
  by_cases hA : oStrTruthy sc.imageAUrl <;> by_cases hB : oStrTruthy sc.imageBUrl <;>
      simp only [hA, hB, Bool.false_eq_true, ite_true, ite_false]
  · apply urlClean_update (Or.inl rfl) (Or.inl rfl)
    exact urlClean_update (Or.inl rfl) (Or.inl rfl) h
  · apply urlClean_update (Or.inl rfl) (Or.inl rfl)
    apply urlClean_update (Or.inl (sceneBPatch_imageAUrl rb)) (sceneBPatch_clean hrb)
    apply urlClean_update (Or.inl rfl) (Or.inl rfl)
    exact urlClean_update (Or.inl rfl) (Or.inl rfl) h
  · apply urlClean_update (Or.inl rfl) (Or.inl rfl)
    apply urlClean_update (sceneAPatch_clean hra) (Or.inl (sceneAPatch_imageBUrl ra))
    apply urlClean_update (Or.inl rfl) (Or.inl rfl)
    exact urlClean_update (Or.inl rfl) (Or.inl rfl) h
  · apply urlClean_update (Or.inl rfl) (Or.inl rfl)
    apply urlClean_update (Or.inl (sceneBPatch_imageAUrl rb)) (sceneBPatch_clean hrb)
    apply urlClean_update (Or.inl rfl) (Or.inl rfl)
    apply urlClean_update (sceneAPatch_clean hra) (Or.inl (sceneAPatch_imageBUrl ra))
    apply urlClean_update (Or.inl rfl) (Or.inl rfl)
    exact urlClean_update (Or.inl rfl) (Or.inl rfl) h

lemma scenesSync_processSceneCore {i : Nat} {ra rb : Except String String} {st : AppState}
    (h : scenesSync st) : scenesSync (processSceneCore i ra rb st).1 := by
  unfold processSceneCore
  exact scenesSync_update (scenesSync_update (scenesSync_update (scenesSync_update
    (scenesSync_update (scenesSync_update h _ _) _ _) _ _) _ _) _ _) _ _

lemma scenesSync_repairSceneCore {sc : Scene} {ra rb : Except String String} {st : AppState}
    (h : scenesSync st) : scenesSync (repairSceneCore sc ra rb st).1 := by
  unfold repairSceneCore
  by_cases hA : oStrTruthy sc.imageAUrl <;> by_cases hB : oStrTruthy sc.imageBUrl <;>
      simp only [hA, hB, Bool.false_eq_true, ite_true, ite_false]
  · exact scenesSync_update (scenesSync_update h _ _) _ _
  · exact scenesSync_update (scenesSync_update (scenesSync_update
      (scenesSync_update h _ _) _ _) _ _) _ _
  · exact scenesSync_update (scenesSync_update (scenesSync_update
      (scenesSync_update h _ _) _ _) _ _) _ _
  · exact scenesSync_update (scenesSync_update (scenesSync_update (scenesSync_update
      (scenesSync_update (scenesSync_update h _ _) _ _) _ _) _ _) _ _) _ _

lemma firstPass_c9 (gen : Oracle) :
    ∀ (scl : List Scene) (st : AppState) (k : Nat),
      (scl.map Scene.id).Nodup →
      (∀ s ∈ stateScenes st, s.id ∈ scl.map Scene.id →
        s.imageAUrl = none ∧ s.imageBUrl = none) →
      urlClean st → scenesSync st →
      (TraceOK urlMono (firstPass gen scl st k).2.2 st (firstPass gen scl st k).1
        ∧ urlClean (firstPass gen scl st k).1
        ∧ scenesSync (firstPass gen scl st k).1) := by
  intro scl
  induction scl with
  | nil =>
    intro st k _ _ hclean hsync
    exact ⟨rfl, hclean, hsync⟩
  | cons sc rest ih =>
    intro st k hnd hfresh hclean hsync
    simp only [List.map_cons, List.nodup_cons] at hnd
    have hra : ∀ u, (generateSceneImageWithRetry gen k 3).1 = Except.ok u → u ≠ "" :=
      fun u hu => retry_res_ok_ne hu
    have hrb : ∀ u,
        (generateSceneImageWithRetry gen (generateSceneImageWithRetry gen k 3).2.1 3).1
          = Except.ok u → u ≠ "" :=
      fun u hu => retry_res_ok_ne hu
    have hmemHead : sc.id ∈ (sc :: rest).map Scene.id := by
      simp
    have hfA : ∀ s ∈ stateScenes st, s.id = sc.id → s.imageAUrl = none :=
      fun s hs hid => (hfresh s hs (by rw [hid]; exact hmemHead)).1
    have hfB : ∀ s ∈ stateScenes st, s.id = sc.id → s.imageBUrl = none :=
      fun s hs hid => (hfresh s hs (by rw [hid]; exact hmemHead)).2
    have hcore := @processSceneCore_urlMono sc.id
      (generateSceneImageWithRetry gen k 3).1
      (generateSceneImageWithRetry gen (generateSceneImageWithRetry gen k 3).2.1 3).1
      st hfA hfB
    have hclean1 : urlClean (processScene gen st k sc).1 := by
      unfold processScene
      exact urlClean_processSceneCore hra hrb hclean
    have hsync1 : scenesSync (processScene gen st k sc).1 := by
      unfold processScene
      exact scenesSync_processSceneCore hsync
    have hfresh1 : ∀ s ∈ stateScenes (processScene gen st k sc).1,
        s.id ∈ rest.map Scene.id → s.imageAUrl = none ∧ s.imageBUrl = none := by
      intro s hs hmem
      have hne : s.id ≠ sc.id := fun he => hnd.1 (he ▸ hmem)
      have hprev : ∀ s0 ∈ stateScenes st, s0.id = s.id →
          s0.imageAUrl = none ∧ s0.imageBUrl = none := by
        intro s0 hs0 hid0
        apply hfresh s0 hs0
        rw [hid0]
        simp only [List.map_cons]
        exact List.mem_cons_of_mem _ hmem
      unfold processScene at hs
      exact keepAB_processSceneCore_ne hne hprev s hs rfl
    have hrest := ih (processScene gen st k sc).1 (processScene gen st k sc).2.1 hnd.2
      hfresh1 hclean1 hsync1
    simp only [firstPass]
    refine ⟨?_, hrest.2.1, hrest.2.2⟩
    refine TraceOK_append ?_ hrest.1
    unfold processScene
    exact hcore

lemma repairPass_c9 (gen : Oracle) :
    ∀ (missing : List Scene) (st : AppState) (k : Nat),
      (missing.map Scene.id).Nodup →
      (∀ sc ∈ missing, ∀ s ∈ stateScenes st, s.id = sc.id →
        s.imageAUrl = sc.imageAUrl ∧ s.imageBUrl = sc.imageBUrl) →
      (∀ sc ∈ missing,
        (sc.imageAUrl = none ∨ oStrTruthy sc.imageAUrl = true)
        ∧ (sc.imageBUrl = none ∨ oStrTruthy sc.imageBUrl = true)) →
      TraceOK urlMono (repairPass gen missing st k).2.2 st (repairPass gen missing st k).1 := by
  intro missing
  induction missing with
  | nil =>
    intro st k _ _ _
    exact rfl
  | cons sc rest ih =>
    intro st k hnd hcorr hmclean
    simp only [List.map_cons, List.nodup_cons] at hnd
    have hcorrH := hcorr sc (List.mem_cons_self sc rest)
    have hmcleanH := hmclean sc (List.mem_cons_self sc rest)
    have hcore := @repairSceneCore_urlMono sc
      (generateSceneImageWithRetry gen k 2).1
      (generateSceneImageWithRetry gen
        (if oStrTruthy sc.imageAUrl then k else (generateSceneImageWithRetry gen k 2).2.1) 2).1
      st
      (fun s hs hid => (hcorrH s hs hid).1) (fun s hs hid => (hcorrH s hs hid).2)
      hmcleanH.1 hmcleanH.2
    have hcorr1 : ∀ sc2 ∈ rest, ∀ s ∈ stateScenes (repairScene gen st k sc).1,
        s.id = sc2.id → s.imageAUrl = sc2.imageAUrl ∧ s.imageBUrl = sc2.imageBUrl := by
      intro sc2 hsc2 s hs hid
      have hne : sc2.id ≠ sc.id := fun he => hnd.1 (he ▸ List.mem_map_of_mem Scene.id hsc2)
      have hprev := hcorr sc2 (List.mem_cons_of_mem _ hsc2)
      unfold repairScene at hs
      exact corr_repairSceneCore_ne hne hprev s hs hid
    have hrest := ih (repairScene gen st k sc).1 (repairScene gen st k sc).2.1 hnd.2
      hcorr1 (fun sc2 hsc2 => hmclean sc2 (List.mem_cons_of_mem _ hsc2))
    simp only [repairPass]
    refine TraceOK_append ?_ hrest
    unfold repairScene
    exact hcore

lemma eq_of_id_eq {l : List Scene} (hnd : (l.map Scene.id).Nodup) :
    ∀ a ∈ l, ∀ b ∈ l, a.id = b.id → a = b := by
  induction l with
  | nil => intro a ha; cases ha
  | cons x xs ih =>
    simp only [List.map_cons, List.nodup_cons] at hnd
    intro a ha b hb hab
    rcases List.mem_cons.mp ha with ha1 | ha1
    · rcases List.mem_cons.mp hb with hb1 | hb1
      · rw [ha1, hb1]
      · exfalso
        apply hnd.1
        rw [← ha1, hab]
        exact List.mem_map_of_mem Scene.id hb1
    · rcases List.mem_cons.mp hb with hb1 | hb1
      · exfalso
        apply hnd.1
        rw [← hb1, ← hab]
        exact List.mem_map_of_mem Scene.id ha1
      · exact ih hnd.2 a ha1 b hb1 hab

lemma retryMissingImages_c9 (gen : Oracle) (st : AppState) (k : Nat)
    (hnd : ((stateScenes st).map Scene.id).Nodup)
    (hclean : urlClean st) (hsync : scenesSync st) :
    TraceOK urlMono (retryMissingImages gen st k).2.2 st (retryMissingImages gen st k).1 := by
  unfold retryMissingImages
  cases href : st.storyboardRef with
  | none => exact rfl
  | some cur =>
    have hcur : cur.scenes = stateScenes st := by
      unfold scenesSync at hsync
      rw [href] at hsync
      cases hsb : st.storyboard with
      | none => rw [hsb] at hsync; cases hsync
      | some sb =>
        rw [hsb] at hsync
        simp only [Option.map] at hsync
        rw [stateScenes, hsb]
        exact Option.some.inj hsync
    have hsub : List.Sublist (missingFilter cur.scenes) (stateScenes st) := by
      rw [← hcur]
      exact List.filter_sublist cur.scenes
    have hmnd : ((missingFilter cur.scenes).map Scene.id).Nodup :=
      hnd.sublist (hsub.map Scene.id)
    apply repairPass_c9
    · exact hmnd
    · intro sc hsc s hs hid
      have hscmem : sc ∈ stateScenes st := hsub.subset hsc
      have := eq_of_id_eq hnd s hs sc hscmem hid
      rw [this]
      exact ⟨rfl, rfl⟩
    · intro sc hsc
      exact hclean sc (hsub.subset hsc)

/-- C9: starting from the state `handleGenerate` hands the pipeline — the
shadow reference and the store agree on the scene list, scene ids are
distinct, and no scene has an image URL yet — every single store update
made by the pipeline (first pass and repair pass alike) preserves every
already-set `imageAUrl`/`imageBUrl`: once an image URL is written it is
never cleared or replaced for the rest of the run. -/
theorem c9_image_urls_monotone (gen : Oracle) (data : StoryboardData) (st0 : AppState)
    (k : Nat) (hsync : scenesSync st0)
    (hndStore : ((stateScenes st0).map Scene.id).Nodup)
    (hndData : (data.scenes.map Scene.id).Nodup)
    (hfresh : ∀ s ∈ stateScenes st0, s.imageAUrl = none ∧ s.imageBUrl = none) :
    TraceOK urlMono (processImagesQueue gen data st0 k).2.2 st0
      (processImagesQueue gen data st0 k).1 := by
  have hclean0 : urlClean st0 :=
    fun s hs => ⟨Or.inl (hfresh s hs).1, Or.inl (hfresh s hs).2⟩
  have hfp := firstPass_c9 gen data.scenes st0 k hndData
    (fun s hs _ => hfresh s hs) hclean0 hsync
  have hnd1 : ((stateScenes (firstPass gen data.scenes st0 k).1).map Scene.id).Nodup := by
    rw [ids_firstPass]
    exact hndStore
  have hrm := retryMissingImages_c9 gen (firstPass gen data.scenes st0 k).1
    (firstPass gen data.scenes st0 k).2.1 hnd1 hfp.2.1 hfp.2.2
  simp only [processImagesQueue]
  exact TraceOK_append hfp.1 hrm

/-- Witness for C9 at a concrete two-scene run. -/
theorem c9_image_urls_monotone_witness :
    scenesSync stTwo
    ∧ ((stateScenes stTwo).map Scene.id).Nodup
    ∧ (∀ s ∈ stateScenes stTwo, s.imageAUrl = none ∧ s.imageBUrl = none)
    ∧ TraceOK urlMono (processImagesQueue genAllOk dataTwo stTwo 0).2.2 stTwo
        (processImagesQueue genAllOk dataTwo stTwo 0).1 := by
  refine ⟨by unfold scenesSync; decide, by decide, by decide, ?_⟩
  exact c9_image_urls_monotone genAllOk dataTwo stTwo 0 (by unfold scenesSync; decide)
    (by decide) (by decide) (by decide)

end ToonFrame
